import Mathlib

/-!
# go-stream-deck-sdk: command encoder and event decoder

A shallow embedding of `command.go` and `conn.go`.

Modelling conventions

* A Go `string` is a Lean `String` (so only valid UTF-8 contents are covered).
* A Go `int` (and `TitleTarget`, whose underlying type is `int`) is an `Int`; no
  arithmetic is performed on these values, they are only printed in decimal.
* A Go function returning `(*T, error)` returns a pair `Option T × Option String`
  (`none` is `nil`), so that "value and error at once" is expressible.
* A value of the interface type `Command` is the record of what its dynamic type
  answers: the results of its methods, which optional methods its method set has
  (what the type assertions in `newCommandPayload` probe), and the reflected
  value `json.Marshal` walks.
* `encoding/json` is modelled on the reflected value: struct tags (name, `-`,
  `omitempty`), embedded structs, exportedness, and the string escaping of
  `json.Marshal` (HTML escaping on).  The encoder first builds a `JSON` tree and
  then renders it compactly, in field order (a map: in key order).
* The external package `golang.org/x/net/websocket` is a `Transport`: how it
  answers a connection attempt and a write.  `Dial` returns, next to its Go
  result, the list of what it did on the network.
-/

namespace StreamDeck

/-! ## JSON values and their compact rendering -/

/-- JSON documents.  `raw` is a pre-encoded fragment (a `json.RawMessage`) that the
encoder copies verbatim.  Numbers are integers: the protocol messages modelled
here carry no fractional numbers. -/
inductive JSON where
  | null
  | bool (b : Bool)
  | num (n : Int)
  | str (s : String)
  | raw (bytes : String)
  | arr (items : List JSON)
  | obj (members : List (String × JSON))

/-- Lower-case hexadecimal digit, as in the `hex` table of `encoding/json`. -/
def hexDigit (n : Nat) : Char :=
  "0123456789abcdef".toList.getD n (Char.ofNat 48)

/-- Escaping of one character by `json.Marshal` (with HTML escaping, the default):
quote and backslash get a backslash, the usual control characters their short
form (as Go 1.22 and later write backspace and form feed), the other characters below 0x20 and `<`, `>`, `&` the `\u00XX` form, and
U+2028/U+2029 the `\u202X` form. -/
def escapeChar (c : Char) : List Char :=
  let n := c.toNat
  let bs := Char.ofNat 92
  if n = 34 ∨ n = 92 then [bs, c]
  else if n = 8 then [bs, Char.ofNat 98]
  else if n = 12 then [bs, Char.ofNat 102]
  else if n = 10 then [bs, Char.ofNat 110]
  else if n = 13 then [bs, Char.ofNat 114]
  else if n = 9 then [bs, Char.ofNat 116]
  else if n < 32 ∨ n = 60 ∨ n = 62 ∨ n = 38 then
    [bs, Char.ofNat 117, Char.ofNat 48, Char.ofNat 48, hexDigit (n / 16), hexDigit (n % 16)]
  else if n = 8232 ∨ n = 8233 then
    [bs, Char.ofNat 117, Char.ofNat 50, Char.ofNat 48, Char.ofNat 50, hexDigit (n % 16)]
  else [c]

/-- The quoted JSON string literal for `s` (`appendString` of `encoding/json`). -/
def appendString (s : String) : String :=
  "\"" ++ String.mk (s.toList.flatMap escapeChar) ++ "\""

mutual
/-- Compact rendering of a JSON tree, members in the order given. -/
def render : JSON → String
  | .null => "null"
  | .bool b => if b then "true" else "false"
  | .num n => toString n
  | .str s => appendString s
  | .raw bytes => bytes
  | .arr items => "[" ++ ",".intercalate (renderItems items) ++ "]"
  | .obj members => "\x7b" ++ ",".intercalate (renderMembers members) ++ "\x7d"
/-- Rendering of the items of an array. -/
def renderItems : List JSON → List String
  | [] => []
  | v :: rest => render v :: renderItems rest
/-- Rendering of the members of an object, each as `"key":value`. -/
def renderMembers : List (String × JSON) → List String
  | [] => []
  | (k, v) :: rest => (appendString k ++ ":" ++ render v) :: renderMembers rest
end

/-- The keys of a JSON object, in order (empty for a non-object). -/
def JSON.keys : JSON → List String
  | .obj members => members.map Prod.fst
  | _ => []

/-! ## Reflected Go values and `json.Marshal` -/

/-- What `encoding/json` reads off a struct field: its Go name, whether it is an
embedded (anonymous) field, the name part of its `json` tag (empty when there
is none) and the `omitempty` option. -/
structure StructField where
  name : String
  embedded : Bool
  tagName : String
  omitEmpty : Bool

/-- The Go values that occur in this package, as `encoding/json` sees them through
reflection.  `chan` stands for a value of a kind that has no JSON encoding; `map`
is a map with string keys, given by its entries (distinct keys, in any order);
`nil` is a nil pointer. -/
inductive GoValue where
  | string (s : String)
  | int (n : Int)
  | rawMessage (bytes : String)
  | chan
  | struct (fields : List (StructField × GoValue))
  | map (entries : List (String × GoValue))
  | nil

/-- Exported Go identifiers start with an upper-case letter. -/
def isExported (name : String) : Bool :=
  name.front.isUpper

/-- The `isEmptyValue` test behind `omitempty`: a string, byte slice or map of
length zero, the integer zero, or a nil pointer. -/
def isEmptyValue : GoValue → Bool
  | .string s => s = ""
  | .int n => n = 0
  | .rawMessage bytes => bytes = ""
  | .chan => false
  | .struct _ => false
  | .map entries => entries.isEmpty
  | .nil => true

/-- The JSON object key of a field: the tag name when there is one, else the Go
name. -/
def StructField.key (f : StructField) : String :=
  if f.tagName = "" then f.name else f.tagName

/-- The order in which Go compares strings, on their characters: lexicographic by
code point, which is the byte order of the UTF-8 encodings. -/
def keyLess : List Char → List Char → Bool
  | [], [] => false
  | [], _ :: _ => true
  | _ :: _, [] => false
  | a :: as, b :: bs =>
    if a.toNat < b.toNat then true
    else if b.toNat < a.toNat then false
    else keyLess as bs

/-- Insertion of a member into a list of members sorted by key. -/
def insertMember (m : String × JSON) : List (String × JSON) → List (String × JSON)
  | [] => [m]
  | x :: rest =>
    if keyLess m.1.toList x.1.toList then m :: x :: rest else x :: insertMember m rest

/-- The members sorted by key, as `json.Marshal` orders the entries of a map. -/
def sortMembers : List (String × JSON) → List (String × JSON)
  | [] => []
  | m :: rest => insertMember m (sortMembers rest)

mutual
/-- The JSON tree `json.Marshal` produces for a reflected value, or its error.  The
bytes of a `json.RawMessage` are copied as they are: in this package they always
come from `json.Marshal`, whose output is already compact; a nil one is `null`. -/
def marshalValue : GoValue → Except String JSON
  | .string s => .ok (.str s)
  | .int n => .ok (.num n)
  | .rawMessage bytes => .ok (if bytes = "" then .null else .raw bytes)
  | .chan => .error "json: unsupported type: chan"
  | .struct fields =>
    match marshalFields fields with
    | .ok members => .ok (.obj members)
    | .error e => .error e
  | .map entries =>
    match marshalEntries entries with
    | .ok members => .ok (.obj (sortMembers members))
    | .error e => .error e
  | .nil => .ok .null
/-- The members `json.Marshal` emits for the fields of a struct, in field order:
a field tagged `-` is skipped, an untagged embedded struct contributes its own
fields, an unexported field is skipped, and an `omitempty` field is skipped
when its value is empty. -/
def marshalFields : List (StructField × GoValue) → Except String (List (String × JSON))
  | [] => .ok []
  | (f, v) :: rest =>
    if f.tagName = "-" then marshalFields rest
    else if f.embedded && f.tagName == "" then
      match v with
      | .struct inner =>
        match marshalFields inner with
        | .error e => .error e
        | .ok promoted =>
          match marshalFields rest with
          | .error e => .error e
          | .ok members => .ok (promoted ++ members)
      | _ => marshalFields rest
    else if !isExported f.name then marshalFields rest
    else if f.omitEmpty && isEmptyValue v then marshalFields rest
    else
      match marshalValue v with
      | .error e => .error e
      | .ok j =>
        match marshalFields rest with
        | .error e => .error e
        | .ok members => .ok ((f.key, j) :: members)
/-- The members for the entries of a map, before they are sorted by key. -/
def marshalEntries : List (String × GoValue) → Except String (List (String × JSON))
  | [] => .ok []
  | (k, v) :: rest =>
    match marshalValue v with
    | .error e => .error e
    | .ok j =>
      match marshalEntries rest with
      | .error e => .error e
      | .ok members => .ok ((k, j) :: members)
end

/-- The bytes returned by `json.Marshal`, or its error. -/
def jsonMarshal (v : GoValue) : Except String String :=
  match marshalValue v with
  | .ok j => .ok (render j)
  | .error e => .error e

/-! ## command.go -/

/-- Modelled from the spec: the declaration of `InstanceID` is in a source file
that is missing; `command.go` converts it with `string(cmd.Context)`, and the spec
calls it the identifier of a UI element instance, so it is a string type. -/
abbrev InstanceID := String

/-- The Go type `TitleTarget`, declared as `type TitleTarget int`. -/
abbrev TitleTarget := Int

/-- Title shown on both hardware and software. -/
def TitleTargetBoth : TitleTarget := 0
/-- Title shown on hardware only. -/
def TitleTargetHardware : TitleTarget := 1
/-- Title shown in software only. -/
def TitleTargetSoftware : TitleTarget := 2

/-- An interface value of type `Command`, seen through its dynamic type: the
result of `event()`, whether the method set has `hasPayload`, the result of
`getContext`, `getAction`, `getDevice` when the method set has them (`none` when
the type assertion fails), and the value `json.Marshal(cmd)` encodes. -/
structure Command where
  event : String
  hasPayload : Bool
  getContext : Option String
  getAction : Option String
  getDevice : Option String
  value : GoValue

/-- The envelope struct `commandPayload`. -/
structure commandPayload where
  Event : String
  Context : String
  Action : String
  Device : String
  Payload : String
deriving DecidableEq, Repr

/-- The struct `commandPayload` with its `json` tags, as `json.Marshal` sees it. -/
def commandPayload.reflect (p : commandPayload) : GoValue :=
  .struct [
    (⟨"Event", false, "event", false⟩, .string p.Event),
    (⟨"Context", false, "context", true⟩, .string p.Context),
    (⟨"Action", false, "action", true⟩, .string p.Action),
    (⟨"Device", false, "device", true⟩, .string p.Device),
    (⟨"Payload", false, "payload", true⟩, .rawMessage p.Payload)]

/-- The function `newCommandPayload` of `command.go`.  The error text is the
prefix of the Go message followed by the marshalling error; the `%v` printing
of the command is left out. -/
def newCommandPayload (cmd : Command) (pluginUUID : String) :
    Option commandPayload × Option String :=
  let p : commandPayload :=
    { Event := cmd.event, Context := pluginUUID, Action := "", Device := "", Payload := "" }
  let marshalled : Except String commandPayload :=
    if cmd.hasPayload then
      match jsonMarshal cmd.value with
      | .error err => .error ("failed to marshal a command: " ++ err)
      | .ok payload => .ok { p with Payload := payload }
    else .ok p
  match marshalled with
  | .error err => (none, some err)
  | .ok p =>
    let p := match cmd.getContext with
      | some c => { p with Context := c }
      | none => p
    let p := match cmd.getAction with
      | some a => { p with Action := a }
      | none => p
    let p := match cmd.getDevice with
      | some d => { p with Device := d }
      | none => p
    (some p, none)

/-- The embedded marker struct `payloadCommand` (no fields). -/
def payloadCommandField : StructField × GoValue :=
  (⟨"payloadCommand", true, "", false⟩, .struct [])

/-- The embedded marker struct `noPayloadCommand` (no fields). -/
def noPayloadCommandField : StructField × GoValue :=
  (⟨"noPayloadCommand", true, "", false⟩, .struct [])

/-- The command `OpenURL`. -/
structure OpenURL where
  URL : String
deriving DecidableEq, Repr

/-- The command `LogMessage`. -/
structure LogMessage where
  Message : String
deriving DecidableEq, Repr

/-- The command `SetTitle`. -/
structure SetTitle where
  Context : InstanceID
  Title : String
  Target : TitleTarget
  State : Int
deriving DecidableEq, Repr

/-- The command `ShowAlert`. -/
structure ShowAlert where
  Context : InstanceID
deriving DecidableEq, Repr

/-- The command `ShowOK`. -/
structure ShowOK where
  Context : InstanceID
deriving DecidableEq, Repr

/-- A `*OpenURL` as a `Command`: embeds `payloadCommand`, has no `getContext`. -/
def OpenURL.toCommand (c : OpenURL) : Command where
  event := "openUrl"
  hasPayload := true
  getContext := none
  getAction := none
  getDevice := none
  value := .struct [payloadCommandField, (⟨"URL", false, "url", false⟩, .string c.URL)]

/-- A `*LogMessage` as a `Command`: embeds `payloadCommand`, has no `getContext`. -/
def LogMessage.toCommand (c : LogMessage) : Command where
  event := "logMessage"
  hasPayload := true
  getContext := none
  getAction := none
  getDevice := none
  value := .struct [payloadCommandField,
    (⟨"Message", false, "message", false⟩, .string c.Message)]

/-- A `*SetTitle` as a `Command`: embeds `payloadCommand`, declares `getContext`;
its `Context` field is tagged `json:"-"`. -/
def SetTitle.toCommand (c : SetTitle) : Command where
  event := "setTitle"
  hasPayload := true
  getContext := some c.Context
  getAction := none
  getDevice := none
  value := .struct [payloadCommandField,
    (⟨"Context", false, "-", false⟩, .string c.Context),
    (⟨"Title", false, "title", false⟩, .string c.Title),
    (⟨"Target", false, "target", false⟩, .int c.Target),
    (⟨"State", false, "state", false⟩, .int c.State)]

/-- A `*ShowAlert` as a `Command`: embeds `noPayloadCommand`, declares `getContext`. -/
def ShowAlert.toCommand (c : ShowAlert) : Command where
  event := "showAlert"
  hasPayload := false
  getContext := some c.Context
  getAction := none
  getDevice := none
  value := .struct [noPayloadCommandField,
    (⟨"Context", false, "-", false⟩, .string c.Context)]

/-- A `*ShowOK` as a `Command`: embeds `noPayloadCommand`, declares `getContext`. -/
def ShowOK.toCommand (c : ShowOK) : Command where
  event := "showOk"
  hasPayload := false
  getContext := some c.Context
  getAction := none
  getDevice := none
  value := .struct [noPayloadCommandField,
    (⟨"Context", false, "-", false⟩, .string c.Context)]

/-- The five command types enumerated in `var _ = []Command{...}`, as one sum. -/
inductive CommandValue where
  | openURL (c : OpenURL)
  | logMessage (c : LogMessage)
  | setTitle (c : SetTitle)
  | showAlert (c : ShowAlert)
  | showOK (c : ShowOK)
deriving DecidableEq, Repr

/-- The interface value a command of one of the five types is passed as. -/
def CommandValue.toCommand : CommandValue → Command
  | .openURL c => c.toCommand
  | .logMessage c => c.toCommand
  | .setTitle c => c.toCommand
  | .showAlert c => c.toCommand
  | .showOK c => c.toCommand

/-- Which of the five types a command value has (0 to 4, in declaration order). -/
def CommandValue.typeIndex : CommandValue → Fin 5
  | .openURL _ => 0
  | .logMessage _ => 1
  | .setTitle _ => 2
  | .showAlert _ => 3
  | .showOK _ => 4

/-- What `websocket.JSON.Send` puts on the wire for an envelope: `json.Marshal` of
the `commandPayload` struct. -/
def commandPayload.serialise (p : commandPayload) : Except String String :=
  jsonMarshal p.reflect

/-! ## Events and the event decoder

The source file that declares `eventPayload`, its method `Typed` and the event
types is missing; `event_test.go` names the event types and their exported
fields, `conn.go` calls the decoder.  The definitions of this section that are
not in those two files follow the spec (sections 3, 4.1, 6 and 7).  An inbound
message is a `JSON` tree (the parsed frame); a `json.RawMessage` field holds the
sub-tree it was given, or nothing when the member is absent. -/

/-- Modelled from the spec: the decode errors of section 7 (the source of the
decoder is missing), each with the discriminator of the offending envelope. -/
inductive DecodeError where
  | UnknownEventKind (event : String)
  | MalformedPayload (event : String)
deriving DecidableEq, Repr

/-- Modelled from the spec: the text of a decode error (the error values of the
decoder are missing). -/
def DecodeError.Error : DecodeError → String
  | .UnknownEventKind event => "unknown event: " ++ event
  | .MalformedPayload event => "malformed payload: " ++ event

/-- Modelled from the spec: the declaration of `Coordinates` is missing; its
fields are those `event_test.go` sets. -/
structure Coordinates where
  Row : Int
  Column : Int

/-- Modelled from the spec: the declaration of `Size` is missing; its fields are
those `event_test.go` sets. -/
structure Size where
  Rows : Int
  Columns : Int

/-- Modelled from the spec: the declaration of `DeviceType` is missing; the test
uses it as an integer constant. -/
abbrev DeviceType := Int

/-- The constant the test expects for the wire value 1. -/
def DeviceTypeStreamDeckMini : DeviceType := 1

/-- Modelled from the spec: the declaration of `DeviceInfo` is missing; its fields
are those `event_test.go` sets (the Go field `Type` is spelled `Typ` here). -/
structure DeviceInfo where
  Name : String
  Typ : DeviceType
  Size : Size

/-- Modelled from the spec: the declaration of `Alignment` is missing; the test
uses it as a string token. -/
abbrev Alignment := String

/-- The constant the test expects for the wire value `bottom`. -/
def AlignmentBottom : Alignment := "bottom"

/-- Modelled from the spec: the declaration of `TitleParameters` is missing; its
fields are those `event_test.go` sets. -/
structure TitleParameters where
  FontFamily : String
  FontSize : Int
  FontStyle : String
  FontUnderline : Bool
  ShowTitle : Bool
  TitleAlignment : Alignment
  TitleColor : String

/-- Modelled from the spec: the declaration of `DidReceiveSettings` is missing; its exported
fields are those `event_test.go` sets. -/
structure DidReceiveSettings where
  Action : String
  Context : String
  Device : String
  Settings : Option JSON
  Coordinates : Coordinates
  State : Int
  IsInMultiAction : Bool

/-- Modelled from the spec: the declaration of `DidReceiveGlobalSettings` is missing; its exported
fields are those `event_test.go` sets. -/
structure DidReceiveGlobalSettings where
  Payload : Option JSON

/-- Modelled from the spec: the declaration of `KeyDown` is missing; its exported
fields are those `event_test.go` sets. -/
structure KeyDown where
  Action : String
  Context : String
  Device : String
  Settings : Option JSON
  Coordinates : Coordinates
  State : Int
  UserDesiredState : Int
  IsInMultiAction : Bool

/-- Modelled from the spec: the declaration of `KeyUp` is missing; its exported
fields are those `event_test.go` sets. -/
structure KeyUp where
  Action : String
  Context : String
  Device : String
  Settings : Option JSON
  Coordinates : Coordinates
  State : Int
  UserDesiredState : Int
  IsInMultiAction : Bool

/-- Modelled from the spec: the declaration of `WillAppear` is missing; its exported
fields are those `event_test.go` sets. -/
structure WillAppear where
  Action : String
  Context : String
  Device : String
  Settings : Option JSON
  Coordinates : Coordinates
  State : Int
  IsInMultiAction : Bool

/-- Modelled from the spec: the declaration of `WillDisappear` is missing; its exported
fields are those `event_test.go` sets. -/
structure WillDisappear where
  Action : String
  Context : String
  Device : String
  Settings : Option JSON
  Coordinates : Coordinates
  State : Int
  IsInMultiAction : Bool

/-- Modelled from the spec: the declaration of `TitleParametersDidChange` is missing; its exported
fields are those `event_test.go` sets. -/
structure TitleParametersDidChange where
  Action : String
  Context : String
  Device : String
  Settings : Option JSON
  Coordinates : Coordinates
  State : Int
  Title : String
  TitleParameters : TitleParameters

/-- Modelled from the spec: the declaration of `DeviceDidConnect` is missing; its exported
fields are those `event_test.go` sets; `DeviceInfo` is a pointer in Go. -/
structure DeviceDidConnect where
  Device : String
  DeviceInfo : Option DeviceInfo

/-- Modelled from the spec: the declaration of `DeviceDidDisconnect` is missing; its exported
fields are those `event_test.go` sets. -/
structure DeviceDidDisconnect where
  Device : String

/-- Modelled from the spec: the declaration of `ApplicationDidLaunch` is missing; its exported
fields are those `event_test.go` sets. -/
structure ApplicationDidLaunch where
  Application : String

/-- Modelled from the spec: the declaration of `ApplicationDidTerminate` is missing; its exported
fields are those `event_test.go` sets. -/
structure ApplicationDidTerminate where
  Application : String

/-- Modelled from the spec: the declaration of `SystemDidWakeUp` is missing; its exported
fields are those `event_test.go` sets (none). -/
structure SystemDidWakeUp where

/-- Modelled from the spec: the declaration of `PropertyInspectorDidAppear` is missing; its exported
fields are those `event_test.go` sets. -/
structure PropertyInspectorDidAppear where
  Action : String
  Context : String
  Device : String

/-- Modelled from the spec: the declaration of `PropertyInspectorDidDisappear` is missing; its exported
fields are those `event_test.go` sets. -/
structure PropertyInspectorDidDisappear where
  Action : String
  Context : String
  Device : String

/-- Modelled from the spec: the declaration of `SendToPlugin` is missing; its exported
fields are those `event_test.go` sets. -/
structure SendToPlugin where
  Action : String
  Context : String
  Payload : Option JSON

/-- Modelled from the spec: the interface `Event` (its declaration is missing) as
the tagged union of the fifteen event types. -/
inductive Event where
  | didReceiveSettings (e : DidReceiveSettings)
  | didReceiveGlobalSettings (e : DidReceiveGlobalSettings)
  | keyDown (e : KeyDown)
  | keyUp (e : KeyUp)
  | willAppear (e : WillAppear)
  | willDisappear (e : WillDisappear)
  | titleParametersDidChange (e : TitleParametersDidChange)
  | deviceDidConnect (e : DeviceDidConnect)
  | deviceDidDisconnect (e : DeviceDidDisconnect)
  | applicationDidLaunch (e : ApplicationDidLaunch)
  | applicationDidTerminate (e : ApplicationDidTerminate)
  | systemDidWakeUp (e : SystemDidWakeUp)
  | propertyInspectorDidAppear (e : PropertyInspectorDidAppear)
  | propertyInspectorDidDisappear (e : PropertyInspectorDidDisappear)
  | sendToPlugin (e : SendToPlugin)

/-- Modelled from the spec: the inbound envelope `eventPayload` (its declaration is
missing): the discriminator, the three optional identity strings, and the two
nested parts kept undecoded, the generic `payload` and the top-level
`deviceInfo`. -/
structure eventPayload where
  Event : String
  Action : String
  Context : String
  Device : String
  DeviceInfo : Option JSON
  Payload : Option JSON

/-- The members of a JSON object. -/
abbrev Members := List (String × JSON)

/-- Modelled from the spec: decoding of a string member (the decoder source is
missing): absent or `null` leaves the zero value, another JSON type is an
error. -/
def getString (event : String) (ms : Members) (k : String) : Except DecodeError String :=
  match ms.lookup k with
  | none => .ok ""
  | some .null => .ok ""
  | some (.str s) => .ok s
  | some _ => .error (.MalformedPayload event)

/-- Modelled from the spec: decoding of an integer member (the decoder source is
missing): absent or `null` leaves zero, another JSON type is an error. -/
def getInt (event : String) (ms : Members) (k : String) : Except DecodeError Int :=
  match ms.lookup k with
  | none => .ok 0
  | some .null => .ok 0
  | some (.num n) => .ok n
  | some _ => .error (.MalformedPayload event)

/-- Modelled from the spec: decoding of a boolean member (the decoder source is
missing): absent or `null` leaves `false`, another JSON type is an error. -/
def getBool (event : String) (ms : Members) (k : String) : Except DecodeError Bool :=
  match ms.lookup k with
  | none => .ok false
  | some .null => .ok false
  | some (.bool b) => .ok b
  | some _ => .error (.MalformedPayload event)

/-- Modelled from the spec: the members of a nested object (the decoder source is
missing): absent or `null` gives none, a JSON value that is not an object is an
error. -/
def getObject (event : String) (v : Option JSON) : Except DecodeError Members :=
  match v with
  | none => .ok []
  | some .null => .ok []
  | some (.obj ms) => .ok ms
  | some _ => .error (.MalformedPayload event)

/-- Modelled from the spec: `json.Unmarshal` of a frame into `eventPayload` (the
declaration of `eventPayload` is missing): the top-level members `event`,
`action`, `context`, `device` are decoded, `deviceInfo` and `payload` are kept
as they are, other members are ignored. -/
def unmarshalEventPayload (frame : JSON) : Except DecodeError eventPayload :=
  match frame with
  | .obj ms => do
    let event ← getString "" ms "event"
    let action ← getString event ms "action"
    let context ← getString event ms "context"
    let device ← getString event ms "device"
    .ok { Event := event, Action := action, Context := context, Device := device,
          DeviceInfo := ms.lookup "deviceInfo", Payload := ms.lookup "payload" }
  | _ => .error (.MalformedPayload "")

/-- Modelled from the spec: decoding of a `coordinates` member (the decoder source
is missing). -/
def getCoordinates (event : String) (ms : Members) : Except DecodeError Coordinates := do
  let c ← getObject event (ms.lookup "coordinates")
  let row ← getInt event c "row"
  let column ← getInt event c "column"
  .ok { Row := row, Column := column }

/-- Modelled from the spec: decoding of a `titleParameters` member (the decoder
source is missing). -/
def getTitleParameters (event : String) (ms : Members) :
    Except DecodeError TitleParameters := do
  let t ← getObject event (ms.lookup "titleParameters")
  let fontFamily ← getString event t "fontFamily"
  let fontSize ← getInt event t "fontSize"
  let fontStyle ← getString event t "fontStyle"
  let fontUnderline ← getBool event t "fontUnderline"
  let showTitle ← getBool event t "showTitle"
  let titleAlignment ← getString event t "titleAlignment"
  let titleColor ← getString event t "titleColor"
  .ok { FontFamily := fontFamily, FontSize := fontSize, FontStyle := fontStyle,
        FontUnderline := fontUnderline, ShowTitle := showTitle,
        TitleAlignment := titleAlignment, TitleColor := titleColor }

/-- Modelled from the spec: decoding of the top-level `deviceInfo` part (the
decoder source is missing); absent or `null` leaves the pointer nil. -/
def getDeviceInfo (event : String) (v : Option JSON) :
    Except DecodeError (Option DeviceInfo) :=
  match v with
  | none => .ok none
  | some .null => .ok none
  | some (.obj d) => do
    let name ← getString event d "name"
    let typ ← getInt event d "type"
    let size ← getObject event (d.lookup "size")
    let rows ← getInt event size "rows"
    let columns ← getInt event size "columns"
    .ok (some { Name := name, Typ := typ, Size := { Rows := rows, Columns := columns } })
  | some _ => .error (.MalformedPayload event)

/-- Modelled from the spec: decoder of `DidReceiveSettings` (payload-nested layout): the
identity strings come from the top level, the other fields from the nested
payload. -/
def decodeDidReceiveSettings (p : eventPayload) : Except DecodeError Event := do
  let ms ← getObject p.Event p.Payload
  let coordinates ← getCoordinates p.Event ms
  let state ← getInt p.Event ms "state"
  let isInMultiAction ← getBool p.Event ms "isInMultiAction"
  .ok (.didReceiveSettings {
      Action := p.Action, Context := p.Context, Device := p.Device,
      Settings := ms.lookup "settings", Coordinates := coordinates, State := state,
      IsInMultiAction := isInMultiAction })

/-- Modelled from the spec: decoder of `KeyDown` (payload-nested layout): the
identity strings come from the top level, the other fields from the nested
payload. -/
def decodeKeyDown (p : eventPayload) : Except DecodeError Event := do
  let ms ← getObject p.Event p.Payload
  let coordinates ← getCoordinates p.Event ms
  let state ← getInt p.Event ms "state"
  let userDesiredState ← getInt p.Event ms "userDesiredState"
  let isInMultiAction ← getBool p.Event ms "isInMultiAction"
  .ok (.keyDown {
      Action := p.Action, Context := p.Context, Device := p.Device,
      Settings := ms.lookup "settings", Coordinates := coordinates, State := state,
      UserDesiredState := userDesiredState,
      IsInMultiAction := isInMultiAction })

/-- Modelled from the spec: decoder of `KeyUp` (payload-nested layout): the
identity strings come from the top level, the other fields from the nested
payload. -/
def decodeKeyUp (p : eventPayload) : Except DecodeError Event := do
  let ms ← getObject p.Event p.Payload
  let coordinates ← getCoordinates p.Event ms
  let state ← getInt p.Event ms "state"
  let userDesiredState ← getInt p.Event ms "userDesiredState"
  let isInMultiAction ← getBool p.Event ms "isInMultiAction"
  .ok (.keyUp {
      Action := p.Action, Context := p.Context, Device := p.Device,
      Settings := ms.lookup "settings", Coordinates := coordinates, State := state,
      UserDesiredState := userDesiredState,
      IsInMultiAction := isInMultiAction })

/-- Modelled from the spec: decoder of `WillAppear` (payload-nested layout): the
identity strings come from the top level, the other fields from the nested
payload. -/
def decodeWillAppear (p : eventPayload) : Except DecodeError Event := do
  let ms ← getObject p.Event p.Payload
  let coordinates ← getCoordinates p.Event ms
  let state ← getInt p.Event ms "state"
  let isInMultiAction ← getBool p.Event ms "isInMultiAction"
  .ok (.willAppear {
      Action := p.Action, Context := p.Context, Device := p.Device,
      Settings := ms.lookup "settings", Coordinates := coordinates, State := state,
      IsInMultiAction := isInMultiAction })

/-- Modelled from the spec: decoder of `WillDisappear` (payload-nested layout): the
identity strings come from the top level, the other fields from the nested
payload. -/
def decodeWillDisappear (p : eventPayload) : Except DecodeError Event := do
  let ms ← getObject p.Event p.Payload
  let coordinates ← getCoordinates p.Event ms
  let state ← getInt p.Event ms "state"
  let isInMultiAction ← getBool p.Event ms "isInMultiAction"
  .ok (.willDisappear {
      Action := p.Action, Context := p.Context, Device := p.Device,
      Settings := ms.lookup "settings", Coordinates := coordinates, State := state,
      IsInMultiAction := isInMultiAction })

/-- Modelled from the spec: decoder of `TitleParametersDidChange` (payload-nested layout): the
identity strings come from the top level, the other fields from the nested
payload. -/
def decodeTitleParametersDidChange (p : eventPayload) : Except DecodeError Event := do
  let ms ← getObject p.Event p.Payload
  let coordinates ← getCoordinates p.Event ms
  let state ← getInt p.Event ms "state"
  let title ← getString p.Event ms "title"
  let titleParameters ← getTitleParameters p.Event ms
  .ok (.titleParametersDidChange {
      Action := p.Action, Context := p.Context, Device := p.Device,
      Settings := ms.lookup "settings", Coordinates := coordinates, State := state,
      Title := title,
      TitleParameters := titleParameters })

/-- Modelled from the spec: decoder of `DidReceiveGlobalSettings`: the nested
payload is kept undecoded. -/
def decodeDidReceiveGlobalSettings (p : eventPayload) : Except DecodeError Event :=
  .ok (.didReceiveGlobalSettings { Payload := p.Payload })

/-- Modelled from the spec: decoder of `DeviceDidConnect` (mixed layout): `device`
and the nested `deviceInfo` both come from the top level. -/
def decodeDeviceDidConnect (p : eventPayload) : Except DecodeError Event := do
  let info ← getDeviceInfo p.Event p.DeviceInfo
  .ok (.deviceDidConnect { Device := p.Device, DeviceInfo := info })

/-- Modelled from the spec: decoder of `DeviceDidDisconnect` (flat layout). -/
def decodeDeviceDidDisconnect (p : eventPayload) : Except DecodeError Event :=
  .ok (.deviceDidDisconnect { Device := p.Device })

/-- Modelled from the spec: decoder of `ApplicationDidLaunch`: `application` comes
from the nested payload. -/
def decodeApplicationDidLaunch (p : eventPayload) : Except DecodeError Event := do
  let ms ← getObject p.Event p.Payload
  let application ← getString p.Event ms "application"
  .ok (.applicationDidLaunch { Application := application })

/-- Modelled from the spec: decoder of `ApplicationDidTerminate`: `application`
comes from the nested payload. -/
def decodeApplicationDidTerminate (p : eventPayload) : Except DecodeError Event := do
  let ms ← getObject p.Event p.Payload
  let application ← getString p.Event ms "application"
  .ok (.applicationDidTerminate { Application := application })

/-- Modelled from the spec: decoder of `SystemDidWakeUp`: the discriminator alone. -/
def decodeSystemDidWakeUp (_ : eventPayload) : Except DecodeError Event :=
  .ok (.systemDidWakeUp {})

/-- Modelled from the spec: decoder of `PropertyInspectorDidAppear` (top-level
identity strings only). -/
def decodePropertyInspectorDidAppear (p : eventPayload) : Except DecodeError Event :=
  .ok (.propertyInspectorDidAppear
    { Action := p.Action, Context := p.Context, Device := p.Device })

/-- Modelled from the spec: decoder of `PropertyInspectorDidDisappear` (top-level
identity strings only). -/
def decodePropertyInspectorDidDisappear (p : eventPayload) : Except DecodeError Event :=
  .ok (.propertyInspectorDidDisappear
    { Action := p.Action, Context := p.Context, Device := p.Device })

/-- Modelled from the spec: decoder of `SendToPlugin`: the nested payload is kept
undecoded. -/
def decodeSendToPlugin (p : eventPayload) : Except DecodeError Event :=
  .ok (.sendToPlugin { Action := p.Action, Context := p.Context, Payload := p.Payload })

/-- Modelled from the spec: the registry of section 2, from each of the fifteen
discriminators of section 6 to the decoder of its event type (the source of the
decoder is missing). -/
def eventRegistry : List (String × (eventPayload → Except DecodeError Event)) :=
  [("didReceiveSettings", decodeDidReceiveSettings),
   ("didReceiveGlobalSettings", decodeDidReceiveGlobalSettings),
   ("keyDown", decodeKeyDown),
   ("keyUp", decodeKeyUp),
   ("willAppear", decodeWillAppear),
   ("willDisappear", decodeWillDisappear),
   ("titleParametersDidChange", decodeTitleParametersDidChange),
   ("deviceDidConnect", decodeDeviceDidConnect),
   ("deviceDidDisconnect", decodeDeviceDidDisconnect),
   ("applicationDidLaunch", decodeApplicationDidLaunch),
   ("applicationDidTerminate", decodeApplicationDidTerminate),
   ("systemDidWakeUp", decodeSystemDidWakeUp),
   ("propertyInspectorDidAppear", decodePropertyInspectorDidAppear),
   ("propertyInspectorDidDisappear", decodePropertyInspectorDidDisappear),
   ("sendToPlugin", decodeSendToPlugin)]

/-- The fifteen recognised event discriminators. -/
def registeredEvents : List String :=
  eventRegistry.map Prod.fst

/-- Modelled from the spec: the method `eventPayload.Typed` (its source is missing):
looks the discriminator up in the registry, fails with `UnknownEventKind` when it
is not registered, and otherwise runs the decoder of the event type.  Returns
the Go pair (event, error). -/
def eventPayload.Typed (p : eventPayload) :
    Option StreamDeck.Event × Option DecodeError :=
  match eventRegistry.lookup p.Event with
  | none => (none, some (.UnknownEventKind p.Event))
  | some decode =>
    match decode p with
    | .ok ev => (some ev, none)
    | .error err => (none, some err)

/-! ## conn.go -/

/-- The method `Conn.Receive` of `conn.go`.  The argument is what
`websocket.JSON.Receive` does on the connection: it fails, or it delivers a frame
that is then unmarshalled into an `eventPayload`.  The error texts are the
prefixes of the Go messages followed by the cause; the `%v` printing of the
payload is left out. -/
def Conn.Receive (received : Except String JSON) : Option Event × Option String :=
  let unmarshalled : Except String eventPayload :=
    match received with
    | .error err => .error err
    | .ok frame =>
      match unmarshalEventPayload frame with
      | .error err => .error err.Error
      | .ok payload => .ok payload
  match unmarshalled with
  | .error err => (none, some ("failed to receive an event: " ++ err))
  | .ok payload =>
    match payload.Typed with
    | (_, some err) => (none, some ("failed to parse an event: " ++ err.Error))
    | (ev, none) => (ev, none)

/-- A `*websocket.Conn` of the external package `golang.org/x/net/websocket`: the
connection handle, identified by what it was dialled with. -/
structure WebsocketConn where
  url : String
  protocol : String
  origin : String
deriving DecidableEq, Repr

/-- The struct `Conn` of `conn.go`: its only field is the websocket connection. -/
structure Conn where
  conn : WebsocketConn
deriving DecidableEq, Repr

/-- What a run does on the network: a connection attempt, or a message written to
a connection. -/
inductive TransportAction where
  | dial (url protocol origin : String)
  | send (conn : WebsocketConn) (message : String)
deriving DecidableEq, Repr

/-- How the external package `golang.org/x/net/websocket` answers in a run:
`dial` is the error of `websocket.Dial` for a URL, protocol and origin (`none`
when the connection is established), `send` the error of writing a message to a
connection (`none` when it is written). -/
structure Transport where
  dial : String → String → String → Option String
  send : WebsocketConn → String → Option String

/-- The call `websocket.JSON.Send(conn, v)`: `json.Marshal` of `v`, then one message
written to the connection.  Returns the error and what was done on the
network. -/
def websocketJSONSend (t : Transport) (conn : WebsocketConn) (v : GoValue) :
    Option String × List TransportAction :=
  match jsonMarshal v with
  | .error err => (some err, [])
  | .ok message => (t.send conn message, [.send conn message])

/-- The function `Dial` of `conn.go`.  Returns the Go pair (connection, error) and
what was done on the network, in order. -/
def Dial (t : Transport) (port event uuid info : String) :
    (Option Conn × Option String) × List TransportAction :=
  if port = "" then ((none, some "port is emtpy"), [])
  else if uuid = "" then ((none, some "uuid is emtpy"), [])
  else if event = "" then ((none, some "event is emtpy"), [])
  else if info = "" then ((none, some "info is emtpy"), [])
  else
    let url := "ws://localhost:" ++ port
    let origin := "http://localhost:" ++ port
    match t.dial url "" origin with
    | some err =>
      ((none, some ("failed to connect to the server: " ++ err)), [.dial url "" origin])
    | none =>
      let conn : WebsocketConn := ⟨url, "", origin⟩
      match websocketJSONSend t conn
          (.map [("event", .string event), ("uuid", .string uuid)]) with
      | (some err, sent) =>
        ((none, some ("error during registratino procedure: " ++ err)),
          .dial url "" origin :: sent)
      | (none, sent) => ((some ⟨conn⟩, none), .dial url "" origin :: sent)

/-! The method `Conn.Send` of `conn.go` has no embedding here: its body calls
`newCommandPayload(cmd)` with the command alone, while `command.go` declares
`newCommandPayload(cmd, pluginUUID)`, so the two files do not fit together and
the call denotes no value; `Conn` has no field that holds the uuid given to
`Dial`. -/

/-- A transport on which every connection attempt and every write succeeds. -/
def okTransport : Transport where
  dial := fun _ _ _ => none
  send := fun _ _ => none

/-- A transport on which connections are established and every write fails. -/
def brokenPipeTransport : Transport where
  dial := fun _ _ _ => none
  send := fun _ _ => some "broken pipe"

/-- The two steps of `TestEventPayload_Typed`: `json.Unmarshal` into an
`eventPayload`, then `Typed`. -/
def decode (frame : JSON) : Option Event × Option DecodeError :=
  match unmarshalEventPayload frame with
  | .error err => (none, some err)
  | .ok p => p.Typed

/-! ## Well-formed envelopes and the fixtures of event_test.go -/

/-- The discriminator of each event type (section 6 of the spec; the names of the
fixtures in `event_test.go`). -/
def Event.discriminator : Event → String
  | .didReceiveSettings _ => "didReceiveSettings"
  | .didReceiveGlobalSettings _ => "didReceiveGlobalSettings"
  | .keyDown _ => "keyDown"
  | .keyUp _ => "keyUp"
  | .willAppear _ => "willAppear"
  | .willDisappear _ => "willDisappear"
  | .titleParametersDidChange _ => "titleParametersDidChange"
  | .deviceDidConnect _ => "deviceDidConnect"
  | .deviceDidDisconnect _ => "deviceDidDisconnect"
  | .applicationDidLaunch _ => "applicationDidLaunch"
  | .applicationDidTerminate _ => "applicationDidTerminate"
  | .systemDidWakeUp _ => "systemDidWakeUp"
  | .propertyInspectorDidAppear _ => "propertyInspectorDidAppear"
  | .propertyInspectorDidDisappear _ => "propertyInspectorDidDisappear"
  | .sendToPlugin _ => "sendToPlugin"

/-- A member that is present exactly when the raw value is. -/
def optMember (k : String) (v : Option JSON) : Members :=
  match v with
  | some j => [(k, j)]
  | none => []

/-- The three identity strings at the top level. -/
def identityMembers (action context device : String) : Members :=
  [("action", .str action), ("context", .str context), ("device", .str device)]

/-- The JSON object of a `Coordinates` value. -/
def Coordinates.toJSON (c : Coordinates) : JSON :=
  .obj [("column", .num c.Column), ("row", .num c.Row)]

/-- The JSON object of a `TitleParameters` value. -/
def TitleParameters.toJSON (t : TitleParameters) : JSON :=
  .obj [("fontFamily", .str t.FontFamily), ("fontSize", .num t.FontSize),
    ("fontStyle", .str t.FontStyle), ("fontUnderline", .bool t.FontUnderline),
    ("showTitle", .bool t.ShowTitle), ("titleAlignment", .str t.TitleAlignment),
    ("titleColor", .str t.TitleColor)]

/-- The JSON object of a `DeviceInfo` value. -/
def DeviceInfo.toJSON (d : DeviceInfo) : JSON :=
  .obj [("name", .str d.Name), ("type", .num d.Typ),
    ("size", .obj [("rows", .num d.Size.Rows), ("columns", .num d.Size.Columns)])]

/-- The members that follow the discriminator in the well-formed envelope of an
event: every exported field of the event, at the place the wire format gives it
(identity strings and `deviceInfo` at the top level, the rest inside `payload`),
laid out as the fixtures of `event_test.go` are. -/
def Event.members : Event → Members
  | .didReceiveSettings e =>
    identityMembers e.Action e.Context e.Device ++
    [("payload", .obj (optMember "settings" e.Settings ++
      [("coordinates", e.Coordinates.toJSON), ("state", .num e.State),
       ("isInMultiAction", .bool e.IsInMultiAction)]))]
  | .didReceiveGlobalSettings e => optMember "payload" e.Payload
  | .keyDown e =>
    identityMembers e.Action e.Context e.Device ++
    [("payload", .obj (optMember "settings" e.Settings ++
      [("coordinates", e.Coordinates.toJSON), ("state", .num e.State),
       ("userDesiredState", .num e.UserDesiredState),
       ("isInMultiAction", .bool e.IsInMultiAction)]))]
  | .keyUp e =>
    identityMembers e.Action e.Context e.Device ++
    [("payload", .obj (optMember "settings" e.Settings ++
      [("coordinates", e.Coordinates.toJSON), ("state", .num e.State),
       ("userDesiredState", .num e.UserDesiredState),
       ("isInMultiAction", .bool e.IsInMultiAction)]))]
  | .willAppear e =>
    identityMembers e.Action e.Context e.Device ++
    [("payload", .obj (optMember "settings" e.Settings ++
      [("coordinates", e.Coordinates.toJSON), ("state", .num e.State),
       ("isInMultiAction", .bool e.IsInMultiAction)]))]
  | .willDisappear e =>
    identityMembers e.Action e.Context e.Device ++
    [("payload", .obj (optMember "settings" e.Settings ++
      [("coordinates", e.Coordinates.toJSON), ("state", .num e.State),
       ("isInMultiAction", .bool e.IsInMultiAction)]))]
  | .titleParametersDidChange e =>
    identityMembers e.Action e.Context e.Device ++
    [("payload", .obj ([("coordinates", e.Coordinates.toJSON)] ++
      optMember "settings" e.Settings ++
      [("state", .num e.State), ("title", .str e.Title),
       ("titleParameters", e.TitleParameters.toJSON)]))]
  | .deviceDidConnect e =>
    [("device", .str e.Device)] ++ optMember "deviceInfo" (e.DeviceInfo.map DeviceInfo.toJSON)
  | .deviceDidDisconnect e => [("device", .str e.Device)]
  | .applicationDidLaunch e => [("payload", .obj [("application", .str e.Application)])]
  | .applicationDidTerminate e => [("payload", .obj [("application", .str e.Application)])]
  | .systemDidWakeUp _ => []
  | .propertyInspectorDidAppear e => identityMembers e.Action e.Context e.Device
  | .propertyInspectorDidDisappear e => identityMembers e.Action e.Context e.Device
  | .sendToPlugin e =>
    [("action", .str e.Action), ("context", .str e.Context)] ++ optMember "payload" e.Payload

/-- The well-formed envelope of an event: the discriminator, then the members of
the event. -/
def wellFormedEnvelope (e : Event) : JSON :=
  .obj (("event", .str e.discriminator) :: e.members)

/-- The nested payload shared by three fixtures of `event_test.go`. -/
def appearPayloadJSON : JSON :=
  .obj [("settings", .obj []),
    ("coordinates", .obj [("column", .num 3), ("row", .num 1)]),
    ("state", .num 1), ("isInMultiAction", .bool true)]

/-- The nested payload shared by the two key fixtures of `event_test.go`. -/
def keyPayloadJSON : JSON :=
  .obj [("settings", .obj []),
    ("coordinates", .obj [("column", .num 3), ("row", .num 1)]),
    ("state", .num 1), ("userDesiredState", .num 1), ("isInMultiAction", .bool true)]

/-- A fixture with the three identity strings of `event_test.go` around a payload. -/
def identityFixture (event : String) (payload : JSON) : JSON :=
  .obj [("action", .str "com.elgato.example.action1"), ("event", .str event),
    ("context", .str "context"), ("device", .str "device"), ("payload", payload)]

/-- The fixture `didReceiveSettingsJSON`, parsed. -/
def didReceiveSettingsJSON : JSON := identityFixture "didReceiveSettings" appearPayloadJSON
/-- The fixture `didReceiveGlobalSettingsJSON`, parsed. -/
def didReceiveGlobalSettingsJSON : JSON :=
  .obj [("event", .str "didReceiveGlobalSettings"), ("payload", .obj [])]
/-- The fixture `keyDownJSON`, parsed. -/
def keyDownJSON : JSON := identityFixture "keyDown" keyPayloadJSON
/-- The fixture `keyUpJSON`, parsed. -/
def keyUpJSON : JSON := identityFixture "keyUp" keyPayloadJSON
/-- The fixture `willAppearJSON`, parsed. -/
def willAppearJSON : JSON := identityFixture "willAppear" appearPayloadJSON
/-- The fixture `willDisappearJSON`, parsed. -/
def willDisappearJSON : JSON := identityFixture "willDisappear" appearPayloadJSON
/-- The fixture `titleParameterDidChangeJSON`, parsed. -/
def titleParameterDidChangeJSON : JSON :=
  identityFixture "titleParametersDidChange"
    (.obj [("coordinates", .obj [("column", .num 3), ("row", .num 1)]),
      ("settings", .obj []), ("state", .num 1), ("title", .str "title"),
      ("titleParameters", .obj [("fontFamily", .str "fontFamily"), ("fontSize", .num 12),
        ("fontStyle", .str "fontStyle"), ("fontUnderline", .bool true),
        ("showTitle", .bool true), ("titleAlignment", .str "bottom"),
        ("titleColor", .str "#ffffff")])])
/-- The fixture `deviceDidConnectJSON`, parsed. -/
def deviceDidConnectJSON : JSON :=
  .obj [("event", .str "deviceDidConnect"), ("device", .str "device"),
    ("deviceInfo", .obj [("name", .str "Device Name"), ("type", .num 1),
      ("size", .obj [("rows", .num 3), ("columns", .num 5)])])]
/-- The fixture `deviceDidDisconnectJSON`, parsed. -/
def deviceDidDisconnectJSON : JSON :=
  .obj [("event", .str "deviceDidDisconnect"), ("device", .str "device")]
/-- The fixture `applicationDidLaunchJSON`, parsed. -/
def applicationDidLaunchJSON : JSON :=
  .obj [("event", .str "applicationDidLaunch"),
    ("payload", .obj [("application", .str "com.apple.mail")])]
/-- The fixture `applicationDidTerminateJSON`, parsed. -/
def applicationDidTerminateJSON : JSON :=
  .obj [("event", .str "applicationDidTerminate"),
    ("payload", .obj [("application", .str "com.apple.mail")])]
/-- The fixture `systemDidWakeUpJSON`, parsed. -/
def systemDidWakeUpJSON : JSON := .obj [("event", .str "systemDidWakeUp")]
/-- The fixture `propertyInspectorDidAppearJSON`, parsed. -/
def propertyInspectorDidAppearJSON : JSON :=
  .obj [("action", .str "com.elgato.example.action1"),
    ("event", .str "propertyInspectorDidAppear"),
    ("context", .str "context"), ("device", .str "device")]
/-- The fixture `propertyInspectorDidDisappearJSON`, parsed. -/
def propertyInspectorDidDisappearJSON : JSON :=
  .obj [("action", .str "com.elgato.example.action1"),
    ("event", .str "propertyInspectorDidDisappear"),
    ("context", .str "context"), ("device", .str "device")]
/-- The fixture `sendToPluginJSON`, parsed. -/
def sendToPluginJSON : JSON :=
  .obj [("action", .str "com.elgato.example.action1"), ("event", .str "sendToPlugin"),
    ("context", .str "context"), ("payload", .obj [])]

/-! ## Reading JSON text

A reader for the JSON texts of RFC 8259 with integer numbers, the counterpart of
`render`: it is what a receiver of the messages does with the bytes.  It works on
the list of characters; nesting is bounded by a fuel that `parseJSON` sets to
more than the length of the text. -/

/-- JSON whitespace: space, tab, line feed, carriage return. -/
def isWhitespace (c : Char) : Bool :=
  c.toNat = 32 || c.toNat = 9 || c.toNat = 10 || c.toNat = 13

/-- The text after leading whitespace. -/
def skipWhitespace : List Char → List Char
  | [] => []
  | c :: rest => if isWhitespace c then skipWhitespace rest else c :: rest

/-- The value of a hexadecimal digit, in either case. -/
def hexValue (c : Char) : Option Nat :=
  let n := c.toNat
  if 48 ≤ n ∧ n ≤ 57 then some (n - 48)
  else if 97 ≤ n ∧ n ≤ 102 then some (n - 87)
  else if 65 ≤ n ∧ n ≤ 70 then some (n - 55)
  else none

/-- The value of four hexadecimal digits. -/
def hex4 (a b c d : Char) : Option Nat :=
  match hexValue a, hexValue b, hexValue c, hexValue d with
  | some x, some y, some z, some w => some (((x * 16 + y) * 16 + z) * 16 + w)
  | _, _, _, _ => none

/-- The character a one-letter escape stands for: quote, backslash, slash, and the
letters b, f, n, r, t. -/
def simpleEscape (e : Char) : Option Char :=
  let n := e.toNat
  if n = 34 ∨ n = 92 ∨ n = 47 then some e
  else if n = 98 then some (Char.ofNat 8)
  else if n = 102 then some (Char.ofNat 12)
  else if n = 110 then some (Char.ofNat 10)
  else if n = 114 then some (Char.ofNat 13)
  else if n = 116 then some (Char.ofNat 9)
  else none

/-- The character of a `\uXXXX` escape with value `v`, given the text after it: a
high surrogate followed by the escape of a low surrogate gives the character of
the pair and consumes that escape too, a lone surrogate gives U+FFFD. -/
def unicodeEscape (v : Nat) (rest : List Char) : Char × List Char :=
  if 55296 ≤ v ∧ v < 56320 then
    match rest with
    | b :: u :: a1 :: a2 :: a3 :: a4 :: rest1 =>
      if b.toNat = 92 ∧ u.toNat = 117 then
        match hex4 a1 a2 a3 a4 with
        | some w =>
          if 56320 ≤ w ∧ w < 57344 then
            (Char.ofNat (65536 + (v - 55296) * 1024 + (w - 56320)), rest1)
          else (Char.ofNat 65533, rest)
        | none => (Char.ofNat 65533, rest)
      else (Char.ofNat 65533, rest)
    | _ => (Char.ofNat 65533, rest)
  else if 56320 ≤ v ∧ v < 57344 then (Char.ofNat 65533, rest)
  else (Char.ofNat v, rest)

/-- The characters of a string literal and the text after its closing quote, read
from the text after the opening quote.  The fuel bounds the number of characters
read. -/
def parseStringBody : Nat → List Char → Option (List Char × List Char)
  | 0, _ => none
  | _ + 1, [] => none
  | fuel + 1, c :: rest =>
    if c.toNat = 34 then some ([], rest)
    else if c.toNat = 92 then
      match rest with
      | [] => none
      | e :: rest1 =>
        if e.toNat = 117 then
          match rest1 with
          | a1 :: a2 :: a3 :: a4 :: rest2 =>
            match hex4 a1 a2 a3 a4 with
            | none => none
            | some v =>
              match parseStringBody fuel (unicodeEscape v rest2).2 with
              | none => none
              | some (cs, after) => some ((unicodeEscape v rest2).1 :: cs, after)
          | _ => none
        else
          match simpleEscape e with
          | none => none
          | some ch =>
            match parseStringBody fuel rest1 with
            | none => none
            | some (cs, after) => some (ch :: cs, after)
    else if c.toNat < 32 then none
    else
      match parseStringBody fuel rest with
      | none => none
      | some (cs, after) => some (c :: cs, after)

/-- The leading decimal digits of a text, as their values, and the text after
them. -/
def takeDigits : List Char → List Nat × List Char
  | [] => ([], [])
  | c :: rest =>
    if 48 ≤ c.toNat ∧ c.toNat ≤ 57 then
      ((c.toNat - 48) :: (takeDigits rest).1, (takeDigits rest).2)
    else ([], c :: rest)

/-- An unsigned integer literal: at least one digit, no leading zero before another
digit, and no fraction or exponent after it. -/
def parseNatural (cs : List Char) : Option (Nat × List Char) :=
  match takeDigits cs with
  | ([], _) => none
  | (d :: ds, rest) =>
    if d = 0 ∧ ds ≠ [] then none
    else
      match rest with
      | c :: _ =>
        if c.toNat = 46 ∨ c.toNat = 101 ∨ c.toNat = 69 then none
        else some ((d :: ds).foldl (fun acc x => acc * 10 + x) 0, rest)
      | [] => some ((d :: ds).foldl (fun acc x => acc * 10 + x) 0, rest)

/-- The text after a given prefix, when the text starts with it. -/
def dropPrefix : List Char → List Char → Option (List Char)
  | [], cs => some cs
  | _ :: _, [] => none
  | p :: ps, c :: cs => if p = c then dropPrefix ps cs else none

mutual
/-- A JSON value at the start of a text (after whitespace) and the text after it. -/
def parseValue : Nat → List Char → Option (JSON × List Char)
  | 0, _ => none
  | fuel + 1, cs =>
    match skipWhitespace cs with
    | [] => none
    | c :: rest =>
      if c.toNat = 123 then
        match skipWhitespace rest with
        | [] => none
        | d :: rest1 =>
          if d.toNat = 125 then some (.obj [], rest1)
          else
            match parseMembers fuel (d :: rest1) with
            | none => none
            | some (members, after) => some (.obj members, after)
      else if c.toNat = 91 then
        match skipWhitespace rest with
        | [] => none
        | d :: rest1 =>
          if d.toNat = 93 then some (.arr [], rest1)
          else
            match parseItems fuel (d :: rest1) with
            | none => none
            | some (items, after) => some (.arr items, after)
      else if c.toNat = 34 then
        match parseStringBody (rest.length + 1) rest with
        | none => none
        | some (chars, after) => some (.str (String.mk chars), after)
      else if c.toNat = 45 then
        match parseNatural rest with
        | none => none
        | some (n, after) => some (.num (-(n : Int)), after)
      else
        match dropPrefix "null".toList (c :: rest) with
        | some after => some (.null, after)
        | none =>
          match dropPrefix "true".toList (c :: rest) with
          | some after => some (.bool true, after)
          | none =>
            match dropPrefix "false".toList (c :: rest) with
            | some after => some (.bool false, after)
            | none =>
              match parseNatural (c :: rest) with
              | none => none
              | some (n, after) => some (.num (n : Int), after)
/-- The members of an object, read from its first key to its closing brace. -/
def parseMembers : Nat → List Char → Option (List (String × JSON) × List Char)
  | 0, _ => none
  | fuel + 1, cs =>
    match skipWhitespace cs with
    | [] => none
    | q :: rest =>
      if q.toNat = 34 then
        match parseStringBody (rest.length + 1) rest with
        | none => none
        | some (key, rest1) =>
          match skipWhitespace rest1 with
          | [] => none
          | colon :: rest2 =>
            if colon.toNat = 58 then
              match parseValue fuel rest2 with
              | none => none
              | some (v, rest3) =>
                match skipWhitespace rest3 with
                | [] => none
                | e :: rest4 =>
                  if e.toNat = 125 then some ([(String.mk key, v)], rest4)
                  else if e.toNat = 44 then
                    match parseMembers fuel rest4 with
                    | none => none
                    | some (members, after) => some ((String.mk key, v) :: members, after)
                  else none
            else none
      else none
/-- The items of an array, read from its first item to its closing bracket. -/
def parseItems : Nat → List Char → Option (List JSON × List Char)
  | 0, _ => none
  | fuel + 1, cs =>
    match parseValue fuel cs with
    | none => none
    | some (v, rest) =>
      match skipWhitespace rest with
      | [] => none
      | e :: rest1 =>
        if e.toNat = 93 then some ([v], rest1)
        else if e.toNat = 44 then
          match parseItems fuel rest1 with
          | none => none
          | some (items, after) => some (v :: items, after)
        else none
end

/-- The JSON value a text denotes: one value, with nothing but whitespace after
it. -/
def parseJSON (text : String) : Option JSON :=
  match parseValue (text.length + 1) text.toList with
  | none => none
  | some (v, rest) => if skipWhitespace rest = [] then some v else none

/-! ## Evaluation lemmas -/

theorem newCommandPayload_openURL (c : OpenURL) (s : String) :
    newCommandPayload c.toCommand s =
      (some { Event := "openUrl", Context := s, Action := "", Device := "",
              Payload := render (.obj [("url", .str c.URL)]) }, none) := rfl

theorem newCommandPayload_logMessage (c : LogMessage) (s : String) :
    newCommandPayload c.toCommand s =
      (some { Event := "logMessage", Context := s, Action := "", Device := "",
              Payload := render (.obj [("message", .str c.Message)]) }, none) := rfl

theorem newCommandPayload_setTitle (c : SetTitle) (s : String) :
    newCommandPayload c.toCommand s =
      (some { Event := "setTitle", Context := c.Context, Action := "", Device := "",
              Payload := render (.obj [("title", .str c.Title), ("target", .num c.Target),
                ("state", .num c.State)]) }, none) := rfl

theorem newCommandPayload_showAlert (c : ShowAlert) (s : String) :
    newCommandPayload c.toCommand s =
      (some { Event := "showAlert", Context := c.Context, Action := "", Device := "",
              Payload := "" }, none) := rfl

theorem newCommandPayload_showOK (c : ShowOK) (s : String) :
    newCommandPayload c.toCommand s =
      (some { Event := "showOk", Context := c.Context, Action := "", Device := "",
              Payload := "" }, none) := rfl

/-- A rendered object is never the empty byte string: it starts with a brace. -/
theorem render_obj_ne_empty (ms : List (String × JSON)) : render (.obj ms) ≠ "" := by
  intro h
  have hlen := congrArg String.length h
  simp [render] at hlen
  exact absurd hlen.1.1 (by decide)

/-- The members `json.Marshal` emits for an envelope: `event` always, each of the
four `omitempty` fields exactly when it is not empty. -/
theorem marshalValue_envelope (p : commandPayload) :
    marshalValue p.reflect = .ok (.obj (
      [("event", .str p.Event)]
      ++ (if p.Context = "" then [] else [("context", .str p.Context)])
      ++ (if p.Action = "" then [] else [("action", .str p.Action)])
      ++ (if p.Device = "" then [] else [("device", .str p.Device)])
      ++ (if p.Payload = "" then [] else [("payload", .raw p.Payload)]))) := by
  have e1 : isExported "Event" = true := by decide
  have e2 : isExported "Context" = true := by decide
  have e3 : isExported "Action" = true := by decide
  have e4 : isExported "Device" = true := by decide
  have e5 : isExported "Payload" = true := by decide
  simp only [commandPayload.reflect, marshalValue, marshalFields, StructField.key,
    isEmptyValue, e1, e2, e3, e4, e5]
  by_cases h1 : p.Context = "" <;> by_cases h2 : p.Action = "" <;> by_cases h3 : p.Device = ""
    <;> by_cases h4 : p.Payload = "" <;> simp [h1, h2, h3, h4]

/-- Serialising an envelope never fails, and yields the rendering of the object
`json.Marshal` builds for it. -/
theorem serialise_eq (p : commandPayload) (members : List (String × JSON))
    (h : marshalValue p.reflect = .ok (.obj members)) :
    p.serialise = .ok (render (.obj members)) := by
  simp [commandPayload.serialise, jsonMarshal, h]

/-! ## The command encoder -/

/-- C1: for each of the five command types and every session identity `s`,
`newCommandPayload` returns an envelope whose `Context` is the command's own
`Context` for `SetTitle`, `ShowAlert`, `ShowOK` and is `s` for `OpenURL`,
`LogMessage`. -/
theorem newCommandPayload_context (v : CommandValue) (s : String) :
    ∃ p, newCommandPayload v.toCommand s = (some p, none) ∧
      p.Context = (match v with
        | .openURL _ => s
        | .logMessage _ => s
        | .setTitle c => c.Context
        | .showAlert c => c.Context
        | .showOK c => c.Context) := by
  cases v <;> exact ⟨_, rfl, rfl⟩

/-- C2: the envelope's `Payload` is non-empty exactly for `OpenURL`, `LogMessage`
and `SetTitle`; the serialised envelope is an object that has a `payload` member
exactly in those cases, and for `ShowAlert` and `ShowOK` the `Payload` is empty and
the object has no member named `payload` at all. -/
theorem newCommandPayload_payload_iff (v : CommandValue) (s : String) :
    ∃ p members, newCommandPayload v.toCommand s = (some p, none) ∧
      marshalValue p.reflect = .ok (.obj members) ∧
      p.serialise = .ok (render (.obj members)) ∧
      (p.Payload ≠ "" ↔ (match v with
        | .openURL _ => True
        | .logMessage _ => True
        | .setTitle _ => True
        | .showAlert _ => False
        | .showOK _ => False)) ∧
      ("payload" ∈ members.map Prod.fst ↔ p.Payload ≠ "") ∧
      (match v with
        | .showAlert _ => p.Payload = "" ∧ ∀ j, ("payload", j) ∉ members
        | .showOK _ => p.Payload = "" ∧ ∀ j, ("payload", j) ∉ members
        | _ => members.lookup "payload" = some (.raw p.Payload)) := by
  cases v with
  | openURL c =>
    have hne := render_obj_ne_empty [("url", .str c.URL)]
    refine ⟨_, _, newCommandPayload_openURL c s, marshalValue_envelope _,
      serialise_eq _ _ (marshalValue_envelope _), ?_, ?_, ?_⟩
    · simpa using hne
    · by_cases hs : s = "" <;> simp [hs, hne]
    · by_cases hs : s = "" <;> simp [hs, hne, List.lookup]
  | logMessage c =>
    have hne := render_obj_ne_empty [("message", .str c.Message)]
    refine ⟨_, _, newCommandPayload_logMessage c s, marshalValue_envelope _,
      serialise_eq _ _ (marshalValue_envelope _), ?_, ?_, ?_⟩
    · simpa using hne
    · by_cases hs : s = "" <;> simp [hs, hne]
    · by_cases hs : s = "" <;> simp [hs, hne, List.lookup]
  | setTitle c =>
    have hne := render_obj_ne_empty
      [("title", .str c.Title), ("target", .num c.Target), ("state", .num c.State)]
    refine ⟨_, _, newCommandPayload_setTitle c s, marshalValue_envelope _,
      serialise_eq _ _ (marshalValue_envelope _), ?_, ?_, ?_⟩
    · simpa using hne
    · by_cases hs : c.Context = "" <;> simp [hs, hne]
    · by_cases hs : c.Context = "" <;> simp [hs, hne, List.lookup]
  | showAlert c =>
    refine ⟨_, _, newCommandPayload_showAlert c s, marshalValue_envelope _,
      serialise_eq _ _ (marshalValue_envelope _), ?_, ?_, ?_⟩
    · simp
    · by_cases hs : c.Context = "" <;> simp [hs]
    · by_cases hs : c.Context = "" <;> simp [hs]
  | showOK c =>
    refine ⟨_, _, newCommandPayload_showOK c s, marshalValue_envelope _,
      serialise_eq _ _ (marshalValue_envelope _), ?_, ?_, ?_⟩
    · simp
    · by_cases hs : c.Context = "" <;> simp [hs]
    · by_cases hs : c.Context = "" <;> simp [hs]

/-- C3: the envelope's `Event` is the fixed name of the command's type (`openUrl`,
`logMessage`, `setTitle`, `showAlert`, `showOk`), and two commands (with any
field values and any session identities) get the same name exactly when they
have the same type: the name does not depend on the field values and the type
is recoverable from it. -/
theorem newCommandPayload_event :
    (∀ (v : CommandValue) (s : String),
      ∃ p, newCommandPayload v.toCommand s = (some p, none) ∧
        p.Event = (match v with
          | .openURL _ => "openUrl"
          | .logMessage _ => "logMessage"
          | .setTitle _ => "setTitle"
          | .showAlert _ => "showAlert"
          | .showOK _ => "showOk")) ∧
    (∀ (v w : CommandValue) (s t : String),
      ((newCommandPayload v.toCommand s).1.map (fun p => p.Event) =
        (newCommandPayload w.toCommand t).1.map (fun p => p.Event)) ↔
      v.typeIndex = w.typeIndex) := by
  constructor
  · intro v s
    cases v <;> exact ⟨_, rfl, rfl⟩
  · intro v w s t
    cases v <;> cases w <;>
      simp [CommandValue.toCommand, CommandValue.typeIndex, newCommandPayload_openURL,
        newCommandPayload_logMessage, newCommandPayload_setTitle, newCommandPayload_showAlert,
        newCommandPayload_showOK]

/-- C4: for every `SetTitle` command and session identity, the envelope's payload
is the rendering of the object with exactly the members `title`, `target`,
`state` (in this order) carrying the command's `Title`, `Target` (an integer;
0, 1, 2 for Both, Hardware, Software) and `State`; the command's `Context` goes to
the envelope's `Context` only: the payload is the same whatever the `Context`
and the session identity are. -/
theorem newCommandPayload_setTitle_payload (c : SetTitle) (s : String) :
    ∃ p, newCommandPayload c.toCommand s = (some p, none) ∧
      p.Payload = render (.obj [("title", .str c.Title), ("target", .num c.Target),
        ("state", .num c.State)]) ∧
      marshalValue c.toCommand.value = .ok (.obj [("title", .str c.Title),
        ("target", .num c.Target), ("state", .num c.State)]) ∧
      p.Context = c.Context ∧
      (∀ (ctx : InstanceID) (t : String),
        (newCommandPayload ({ c with Context := ctx } : SetTitle).toCommand t).1.map
          (fun q => q.Payload) = some p.Payload) ∧
      TitleTargetBoth = 0 ∧ TitleTargetHardware = 1 ∧ TitleTargetSoftware = 2 :=
  ⟨_, newCommandPayload_setTitle c s, rfl, rfl, rfl, fun _ _ => rfl, rfl, rfl, rfl⟩

/-- C5: for each of the five command types and every session identity, the
envelope has empty `Action` and empty `Device`, and the object it serialises to
has no member named `action` or `device`. -/
theorem newCommandPayload_no_action_device (v : CommandValue) (s : String) :
    ∃ p members, newCommandPayload v.toCommand s = (some p, none) ∧
      p.Action = "" ∧ p.Device = "" ∧
      marshalValue p.reflect = .ok (.obj members) ∧
      p.serialise = .ok (render (.obj members)) ∧
      "action" ∉ members.map Prod.fst ∧ "device" ∉ members.map Prod.fst := by
  cases v with
  | openURL c =>
    refine ⟨_, _, newCommandPayload_openURL c s, rfl, rfl, marshalValue_envelope _,
      serialise_eq _ _ (marshalValue_envelope _), ?_, ?_⟩ <;>
    · by_cases hs : s = "" <;>
        by_cases hp : render (.obj [("url", .str c.URL)]) = "" <;> simp [hs, hp]
  | logMessage c =>
    refine ⟨_, _, newCommandPayload_logMessage c s, rfl, rfl, marshalValue_envelope _,
      serialise_eq _ _ (marshalValue_envelope _), ?_, ?_⟩ <;>
    · by_cases hs : s = "" <;>
        by_cases hp : render (.obj [("message", .str c.Message)]) = "" <;> simp [hs, hp]
  | setTitle c =>
    refine ⟨_, _, newCommandPayload_setTitle c s, rfl, rfl, marshalValue_envelope _,
      serialise_eq _ _ (marshalValue_envelope _), ?_, ?_⟩ <;>
    · by_cases hs : c.Context = "" <;>
        by_cases hp : render (.obj [("title", .str c.Title), ("target", .num c.Target),
          ("state", .num c.State)]) = "" <;> simp [hs, hp]
  | showAlert c =>
    refine ⟨_, _, newCommandPayload_showAlert c s, rfl, rfl, marshalValue_envelope _,
      serialise_eq _ _ (marshalValue_envelope _), ?_, ?_⟩ <;>
    · by_cases hs : c.Context = "" <;> simp [hs]
  | showOK c =>
    refine ⟨_, _, newCommandPayload_showOK c s, rfl, rfl, marshalValue_envelope _,
      serialise_eq _ _ (marshalValue_envelope _), ?_, ?_⟩ <;>
    · by_cases hs : c.Context = "" <;> simp [hs]

/-- C6: encoding `OpenURL` with URL `https://example.com` under the session identity
`plugin-uuid` and serialising the envelope gives exactly
`{"event":"openUrl","context":"plugin-uuid","payload":{"url":"https://example.com"}}`,
an object with the three members `event`, `context`, `payload`. -/
theorem newCommandPayload_openURL_example :
    ∃ p j, newCommandPayload (OpenURL.toCommand ⟨"https://example.com"⟩) "plugin-uuid"
        = (some p, none) ∧
      p.serialise = .ok ("\x7b\"event\":\"openUrl\",\"context\":\"plugin-uuid\"," ++
        "\"payload\":\x7b\"url\":\"https://example.com\"\x7d\x7d") ∧
      marshalValue p.reflect = .ok j ∧ j.keys = ["event", "context", "payload"] :=
  ⟨_, _, rfl, rfl, rfl, rfl⟩

/-- C7: for every session identity, encoding `ShowOK` with context `ctx123` and
serialising the envelope gives exactly `{"event":"showOk","context":"ctx123"}`. -/
theorem newCommandPayload_showOK_example (s : String) :
    ∃ p, newCommandPayload (ShowOK.toCommand ⟨"ctx123"⟩) s = (some p, none) ∧
      p.serialise = .ok "\x7b\"event\":\"showOk\",\"context\":\"ctx123\"\x7d" :=
  ⟨_, rfl, rfl⟩

/-- C8: for each of the five command types, with any field values, and every session
identity, `newCommandPayload` returns an envelope and no error; and for any
implementation of `Command` whatsoever, when it returns an error it returns no
envelope. -/
theorem newCommandPayload_total :
    (∀ (v : CommandValue) (s : String),
      ∃ p, newCommandPayload v.toCommand s = (some p, none)) ∧
    (∀ (cmd : Command) (s : String),
      (newCommandPayload cmd s).2 ≠ none → (newCommandPayload cmd s).1 = none) := by
  constructor
  · intro v s
    cases v <;> exact ⟨_, rfl⟩
  · intro cmd s
    unfold newCommandPayload
    by_cases hp : cmd.hasPayload = true
    · cases hm : jsonMarshal cmd.value <;> simp [hp, hm]
    · simp [hp]

/-- Witness for C8: a `Command` implementation holding a channel cannot be marshalled;
the call returns an error and no envelope. -/
theorem newCommandPayload_total_witness :
    (newCommandPayload ⟨"bad", true, none, none, none,
        .struct [(⟨"C", false, "", false⟩, .chan)]⟩ "uuid").2 ≠ none ∧
    (newCommandPayload ⟨"bad", true, none, none, none,
        .struct [(⟨"C", false, "", false⟩, .chan)]⟩ "uuid").1 = none :=
  ⟨by decide, newCommandPayload_total.2 _ _ (by decide)⟩

/-! ## The event decoder -/

/-- The expected results of `TestEventPayload_Typed` for the key-down and key-up
fixtures, and for the title fixture. -/
theorem decode_key_fixtures :
    decode keyDownJSON = (some (.keyDown {
        Action := "com.elgato.example.action1", Context := "context", Device := "device",
        Settings := some (.obj []), Coordinates := { Row := 1, Column := 3 }, State := 1,
        UserDesiredState := 1, IsInMultiAction := true }), none) ∧
    decode keyUpJSON = (some (.keyUp {
        Action := "com.elgato.example.action1", Context := "context", Device := "device",
        Settings := some (.obj []), Coordinates := { Row := 1, Column := 3 }, State := 1,
        UserDesiredState := 1, IsInMultiAction := true }), none) ∧
    decode titleParameterDidChangeJSON = (some (.titleParametersDidChange {
        Action := "com.elgato.example.action1", Context := "context", Device := "device",
        Settings := some (.obj []), Coordinates := { Row := 1, Column := 3 }, State := 1,
        Title := "title",
        TitleParameters := {
          FontFamily := "fontFamily", FontSize := 12,
          FontStyle := "fontStyle", FontUnderline := true, ShowTitle := true,
          TitleAlignment := AlignmentBottom, TitleColor := "#ffffff" } }), none) :=
  ⟨rfl, rfl, rfl⟩

/-- The expected results of `TestEventPayload_Typed` for the fixtures whose payload
holds settings, coordinates, state and the multi-action flag. -/
theorem decode_appear_fixtures :
    decode didReceiveSettingsJSON = (some (.didReceiveSettings {
        Action := "com.elgato.example.action1", Context := "context", Device := "device",
        Settings := some (.obj []), Coordinates := { Row := 1, Column := 3 }, State := 1,
        IsInMultiAction := true }), none) ∧
    decode willAppearJSON = (some (.willAppear {
        Action := "com.elgato.example.action1", Context := "context", Device := "device",
        Settings := some (.obj []), Coordinates := { Row := 1, Column := 3 }, State := 1,
        IsInMultiAction := true }), none) ∧
    decode willDisappearJSON = (some (.willDisappear {
        Action := "com.elgato.example.action1", Context := "context", Device := "device",
        Settings := some (.obj []), Coordinates := { Row := 1, Column := 3 }, State := 1,
        IsInMultiAction := true }), none) :=
  ⟨rfl, rfl, rfl⟩

/-- The expected results of `TestEventPayload_Typed` for the other nine fixtures. -/
theorem decode_other_fixtures :
    decode didReceiveGlobalSettingsJSON =
      (some (.didReceiveGlobalSettings { Payload := some (.obj []) }), none) ∧
    decode deviceDidConnectJSON = (some (.deviceDidConnect {
        Device := "device",
        DeviceInfo := some { Name := "Device Name", Typ := DeviceTypeStreamDeckMini,
                             Size := { Rows := 3, Columns := 5 } } }), none) ∧
    decode deviceDidDisconnectJSON =
      (some (.deviceDidDisconnect { Device := "device" }), none) ∧
    decode applicationDidLaunchJSON =
      (some (.applicationDidLaunch { Application := "com.apple.mail" }), none) ∧
    decode applicationDidTerminateJSON =
      (some (.applicationDidTerminate { Application := "com.apple.mail" }), none) ∧
    decode systemDidWakeUpJSON = (some (.systemDidWakeUp {}), none) ∧
    decode propertyInspectorDidAppearJSON = (some (.propertyInspectorDidAppear {
        Action := "com.elgato.example.action1", Context := "context",
        Device := "device" }), none) ∧
    decode propertyInspectorDidDisappearJSON = (some (.propertyInspectorDidDisappear {
        Action := "com.elgato.example.action1", Context := "context",
        Device := "device" }), none) ∧
    decode sendToPluginJSON = (some (.sendToPlugin {
        Action := "com.elgato.example.action1", Context := "context",
        Payload := some (.obj []) }), none) :=
  ⟨rfl, rfl, rfl, rfl, rfl, rfl, rfl, rfl, rfl⟩

/-- A key that is not among the keys of an association list is not found. -/
theorem lookup_eq_none_of_not_mem {β : Type} (k : String) (l : List (String × β))
    (h : k ∉ l.map Prod.fst) : l.lookup k = none := by
  induction l with
  | nil => rfl
  | cons a rest ih =>
    obtain ⟨k', v⟩ := a
    simp only [List.map_cons, List.mem_cons, not_or] at h
    have hne : (k == k') = false := by simpa using h.1
    simp [List.lookup, hne, ih h.2]

/-- The discriminator of every event is registered. -/
theorem discriminator_mem_registeredEvents (e : Event) :
    e.discriminator ∈ registeredEvents := by
  cases e <;> simp [Event.discriminator, registeredEvents, eventRegistry]

/-- C9: for every event value of each of the fifteen event types, the well-formed
envelope that carries its fields (identity strings and `deviceInfo` at the top
level, the other fields inside the nested payload) unmarshals into an
`eventPayload` whose `Typed` succeeds and returns that very event: same type,
every exported field equal to the value in the input.  The registered
discriminators are exactly the discriminators of the fifteen event types, and
the envelope that holds nothing but the discriminator `systemDidWakeUp` decodes
to the field-less event. -/
theorem decode_wellFormedEnvelope :
    (∀ e : Event, ∃ p, unmarshalEventPayload (wellFormedEnvelope e) = .ok p ∧
      p.Event = e.discriminator ∧ p.Typed = (some e, none)) ∧
    (∀ d : String, d ∈ registeredEvents ↔ ∃ e : Event, e.discriminator = d) ∧
    registeredEvents.length = 15 ∧
    decode (.obj [("event", .str "systemDidWakeUp")]) = (some (.systemDidWakeUp {}), none) := by
  refine ⟨?_, ?_, rfl, rfl⟩
  · intro e
    cases e with
    | didReceiveSettings e =>
      obtain ⟨a, c, d, st, co, n, m⟩ := e
      cases st <;> exact ⟨_, rfl, rfl, rfl⟩
    | didReceiveGlobalSettings e =>
      obtain ⟨pl⟩ := e
      cases pl <;> exact ⟨_, rfl, rfl, rfl⟩
    | keyDown e =>
      obtain ⟨a, c, d, st, co, n, u, m⟩ := e
      cases st <;> exact ⟨_, rfl, rfl, rfl⟩
    | keyUp e =>
      obtain ⟨a, c, d, st, co, n, u, m⟩ := e
      cases st <;> exact ⟨_, rfl, rfl, rfl⟩
    | willAppear e =>
      obtain ⟨a, c, d, st, co, n, m⟩ := e
      cases st <;> exact ⟨_, rfl, rfl, rfl⟩
    | willDisappear e =>
      obtain ⟨a, c, d, st, co, n, m⟩ := e
      cases st <;> exact ⟨_, rfl, rfl, rfl⟩
    | titleParametersDidChange e =>
      obtain ⟨a, c, d, st, co, n, t, tp⟩ := e
      cases st <;> exact ⟨_, rfl, rfl, rfl⟩
    | deviceDidConnect e =>
      obtain ⟨d, info⟩ := e
      cases info <;> exact ⟨_, rfl, rfl, rfl⟩
    | deviceDidDisconnect e => exact ⟨_, rfl, rfl, rfl⟩
    | applicationDidLaunch e => exact ⟨_, rfl, rfl, rfl⟩
    | applicationDidTerminate e => exact ⟨_, rfl, rfl, rfl⟩
    | systemDidWakeUp e => exact ⟨_, rfl, rfl, rfl⟩
    | propertyInspectorDidAppear e => exact ⟨_, rfl, rfl, rfl⟩
    | propertyInspectorDidDisappear e => exact ⟨_, rfl, rfl, rfl⟩
    | sendToPlugin e =>
      obtain ⟨a, c, pl⟩ := e
      cases pl <;> exact ⟨_, rfl, rfl, rfl⟩
  · intro d
    constructor
    · intro h
      simp only [registeredEvents, eventRegistry, List.map_cons, List.map_nil,
        List.mem_cons, List.mem_singleton, List.not_mem_nil, or_false] at h
      rcases h with h | h | h | h | h | h | h | h | h | h | h | h | h | h | h
      · exact ⟨.didReceiveSettings ⟨"", "", "", none, ⟨0, 0⟩, 0, false⟩, h.symm⟩
      · exact ⟨.didReceiveGlobalSettings ⟨none⟩, h.symm⟩
      · exact ⟨.keyDown ⟨"", "", "", none, ⟨0, 0⟩, 0, 0, false⟩, h.symm⟩
      · exact ⟨.keyUp ⟨"", "", "", none, ⟨0, 0⟩, 0, 0, false⟩, h.symm⟩
      · exact ⟨.willAppear ⟨"", "", "", none, ⟨0, 0⟩, 0, false⟩, h.symm⟩
      · exact ⟨.willDisappear ⟨"", "", "", none, ⟨0, 0⟩, 0, false⟩, h.symm⟩
      · exact ⟨.titleParametersDidChange
          ⟨"", "", "", none, ⟨0, 0⟩, 0, "", ⟨"", 0, "", false, false, "", ""⟩⟩, h.symm⟩
      · exact ⟨.deviceDidConnect ⟨"", none⟩, h.symm⟩
      · exact ⟨.deviceDidDisconnect ⟨""⟩, h.symm⟩
      · exact ⟨.applicationDidLaunch ⟨""⟩, h.symm⟩
      · exact ⟨.applicationDidTerminate ⟨""⟩, h.symm⟩
      · exact ⟨.systemDidWakeUp ⟨⟩, h.symm⟩
      · exact ⟨.propertyInspectorDidAppear ⟨"", "", ""⟩, h.symm⟩
      · exact ⟨.propertyInspectorDidDisappear ⟨"", "", ""⟩, h.symm⟩
      · exact ⟨.sendToPlugin ⟨"", "", none⟩, h.symm⟩
    · rintro ⟨e, rfl⟩
      exact discriminator_mem_registeredEvents e

/-- C10: when the discriminator of an inbound envelope is not one of the fifteen
registered ones, `Typed` returns the error `UnknownEventKind` and no event, and
`Conn.Receive` of a frame that unmarshals to this envelope returns no event and
an error; and whatever `Conn.Receive` is given, when it returns an error it
returns no event. -/
theorem Typed_unknown_event (p : eventPayload) (h : p.Event ∉ registeredEvents) :
    p.Typed = (none, some (.UnknownEventKind p.Event)) ∧
    (∀ frame : JSON, unmarshalEventPayload frame = .ok p →
      Conn.Receive (.ok frame) =
        (none, some ("failed to parse an event: " ++
          (DecodeError.UnknownEventKind p.Event).Error))) ∧
    (∀ received : Except String JSON,
      (Conn.Receive received).2 ≠ none → (Conn.Receive received).1 = none) := by
  have hTyped : p.Typed = (none, some (.UnknownEventKind p.Event)) := by
    unfold eventPayload.Typed
    rw [lookup_eq_none_of_not_mem p.Event eventRegistry h]
  refine ⟨hTyped, ?_, ?_⟩
  · intro frame hframe
    simp [Conn.Receive, hframe, hTyped]
  · intro received
    unfold Conn.Receive
    cases received with
    | error err => simp
    | ok frame =>
      cases hu : unmarshalEventPayload frame with
      | error err => simp [hu]
      | ok q =>
        rcases hq : q.Typed with ⟨ev, err⟩
        cases err <;> simp [hu, hq]

/-- Witness for C10: the envelope `{"event":"bogus"}`. -/
theorem Typed_unknown_event_witness :
    "bogus" ∉ registeredEvents ∧
    unmarshalEventPayload (.obj [("event", .str "bogus")]) =
      .ok ⟨"bogus", "", "", "", none, none⟩ ∧
    (Conn.Receive (.ok (.obj [("event", .str "bogus")]))).2 ≠ none ∧
    eventPayload.Typed ⟨"bogus", "", "", "", none, none⟩ =
      (none, some (.UnknownEventKind "bogus")) ∧
    Conn.Receive (.ok (.obj [("event", .str "bogus")])) =
      (none, some "failed to parse an event: unknown event: bogus") ∧
    (Conn.Receive (.ok (.obj [("event", .str "bogus")]))).1 = none :=
  have h := Typed_unknown_event ⟨"bogus", "", "", "", none, none⟩ (by decide)
  ⟨by decide, rfl, by decide, h.1, h.2.1 _ rfl, h.2.2 _ (by decide)⟩

/-- C11: a `deviceDidConnect` envelope decodes from the top level only: `Device` is
the top-level `device`, `DeviceInfo` (name, type, size.rows, size.columns) is
the top-level `deviceInfo`, and a `deviceDidDisconnect` envelope gives the
top-level `device`; in both cases the result is the same whatever the generic
`payload` holds, in the unmarshalled envelope and in the frame. -/
theorem Typed_device_events_top_level (action context device : String)
    (info payload : Option JSON) (d : DeviceInfo) :
    eventPayload.Typed ⟨"deviceDidConnect", action, context, device, info, payload⟩ =
      eventPayload.Typed ⟨"deviceDidConnect", action, context, device, info, none⟩ ∧
    eventPayload.Typed ⟨"deviceDidConnect", action, context, device, some d.toJSON, payload⟩ =
      (some (.deviceDidConnect { Device := device, DeviceInfo := some d }), none) ∧
    eventPayload.Typed ⟨"deviceDidConnect", action, context, device, none, payload⟩ =
      (some (.deviceDidConnect { Device := device, DeviceInfo := none }), none) ∧
    eventPayload.Typed ⟨"deviceDidDisconnect", action, context, device, info, payload⟩ =
      (some (.deviceDidDisconnect { Device := device }), none) ∧
    decode (.obj ([("event", .str "deviceDidConnect"), ("device", .str device),
        ("deviceInfo", d.toJSON)] ++ optMember "payload" payload)) =
      (some (.deviceDidConnect { Device := device, DeviceInfo := some d }), none) ∧
    decode (.obj ([("event", .str "deviceDidDisconnect"), ("device", .str device)] ++
        optMember "payload" payload)) =
      (some (.deviceDidDisconnect { Device := device }), none) := by
  refine ⟨rfl, rfl, rfl, rfl, ?_, ?_⟩ <;> cases payload <;> rfl

/-- C15: a declared but empty addressing context is kept: for a `SetTitle`,
`ShowAlert` or `ShowOK` command whose `Context` is empty and every session
identity, the envelope has `Context` empty, and the object it serialises to has
no member named `context`. -/
theorem newCommandPayload_empty_context (s title : String) (target : TitleTarget)
    (state : Int) :
    (∃ p members,
      newCommandPayload (SetTitle.toCommand ⟨"", title, target, state⟩) s = (some p, none) ∧
      p.Context = "" ∧ marshalValue p.reflect = .ok (.obj members) ∧
      p.serialise = .ok (render (.obj members)) ∧ "context" ∉ members.map Prod.fst) ∧
    (∃ p members,
      newCommandPayload (ShowAlert.toCommand ⟨""⟩) s = (some p, none) ∧
      p.Context = "" ∧ marshalValue p.reflect = .ok (.obj members) ∧
      p.serialise = .ok (render (.obj members)) ∧ "context" ∉ members.map Prod.fst) ∧
    (∃ p members,
      newCommandPayload (ShowOK.toCommand ⟨""⟩) s = (some p, none) ∧
      p.Context = "" ∧ marshalValue p.reflect = .ok (.obj members) ∧
      p.serialise = .ok (render (.obj members)) ∧ "context" ∉ members.map Prod.fst) := by
  refine ⟨⟨_, _, newCommandPayload_setTitle _ s, rfl, marshalValue_envelope _,
      serialise_eq _ _ (marshalValue_envelope _), ?_⟩,
    ⟨_, _, newCommandPayload_showAlert _ s, rfl, marshalValue_envelope _,
      serialise_eq _ _ (marshalValue_envelope _), ?_⟩,
    ⟨_, _, newCommandPayload_showOK _ s, rfl, marshalValue_envelope _,
      serialise_eq _ _ (marshalValue_envelope _), ?_⟩⟩
  · by_cases hp : render (.obj [("title", .str title), ("target", .num target),
      ("state", .num state)]) = "" <;> simp [hp]
  · simp
  · simp

/-! ## The session: Dial -/

/-- The registration message: `json.Marshal` of the map with the keys `event` and
`uuid` gives the object with these two members, in this order. -/
theorem jsonMarshal_registration (event uuid : String) :
    jsonMarshal (.map [("event", .string event), ("uuid", .string uuid)]) =
      .ok (render (.obj [("event", .str event), ("uuid", .str uuid)])) := rfl

/-- What `Dial` does when none of its four arguments is empty. -/
theorem Dial_of_nonempty (t : Transport) (port event uuid info : String)
    (hport : port ≠ "") (hevent : event ≠ "") (huuid : uuid ≠ "") (hinfo : info ≠ "") :
    Dial t port event uuid info =
      match t.dial ("ws://localhost:" ++ port) "" ("http://localhost:" ++ port) with
      | some err =>
        ((none, some ("failed to connect to the server: " ++ err)),
          [.dial ("ws://localhost:" ++ port) "" ("http://localhost:" ++ port)])
      | none =>
        match t.send ⟨"ws://localhost:" ++ port, "", "http://localhost:" ++ port⟩
            (render (.obj [("event", .str event), ("uuid", .str uuid)])) with
        | some err =>
          ((none, some ("error during registratino procedure: " ++ err)),
            [.dial ("ws://localhost:" ++ port) "" ("http://localhost:" ++ port),
             .send ⟨"ws://localhost:" ++ port, "", "http://localhost:" ++ port⟩
               (render (.obj [("event", .str event), ("uuid", .str uuid)]))])
        | none =>
          ((some ⟨⟨"ws://localhost:" ++ port, "", "http://localhost:" ++ port⟩⟩, none),
            [.dial ("ws://localhost:" ++ port) "" ("http://localhost:" ++ port),
             .send ⟨"ws://localhost:" ++ port, "", "http://localhost:" ++ port⟩
               (render (.obj [("event", .str event), ("uuid", .str uuid)]))]) := by
  simp only [Dial, hport, huuid, hevent, hinfo, if_false, websocketJSONSend,
    jsonMarshal_registration]
  cases t.dial ("ws://localhost:" ++ port) "" ("http://localhost:" ++ port) with
  | some err => rfl
  | none =>
    cases hs : t.send ⟨"ws://localhost:" ++ port, "", "http://localhost:" ++ port⟩
        (render (.obj [("event", .str event), ("uuid", .str uuid)])) <;> simp [hs]

/-- C12: when at least one of the four arguments of `Dial` is empty, `Dial` returns
an error and no connection and does nothing on the network; whenever `Dial`
does something on the network all four arguments are non-empty; and when all
four are non-empty the first thing it does is the connection attempt. -/
theorem Dial_empty_argument (t : Transport) (port event uuid info : String) :
    ((port = "" ∨ event = "" ∨ uuid = "" ∨ info = "") →
      (∃ err, (Dial t port event uuid info).1 = (none, some err)) ∧
      (Dial t port event uuid info).2 = []) ∧
    ((Dial t port event uuid info).2 ≠ [] →
      port ≠ "" ∧ event ≠ "" ∧ uuid ≠ "" ∧ info ≠ "") ∧
    (port ≠ "" → event ≠ "" → uuid ≠ "" → info ≠ "" →
      (Dial t port event uuid info).2.head? =
        some (.dial ("ws://localhost:" ++ port) "" ("http://localhost:" ++ port))) := by
  have hempty : (port = "" ∨ event = "" ∨ uuid = "" ∨ info = "") →
      (∃ err, (Dial t port event uuid info).1 = (none, some err)) ∧
      (Dial t port event uuid info).2 = [] := by
    intro h
    unfold Dial
    by_cases hport : port = ""
    · simp [hport]
    · by_cases huuid : uuid = ""
      · simp [hport, huuid]
      · by_cases hevent : event = ""
        · simp [hport, huuid, hevent]
        · have hinfo : info = "" := by
            rcases h with h | h | h | h
            · exact absurd h hport
            · exact absurd h hevent
            · exact absurd h huuid
            · exact h
          simp [hport, huuid, hevent, hinfo]
  refine ⟨hempty, ?_, ?_⟩
  · intro hne
    by_contra hcon
    have h : port = "" ∨ event = "" ∨ uuid = "" ∨ info = "" := by
      by_contra hall
      simp only [not_or] at hall
      exact hcon ⟨hall.1, hall.2.1, hall.2.2.1, hall.2.2.2⟩
    exact hne (hempty h).2
  · intro hport hevent huuid hinfo
    rw [Dial_of_nonempty t port event uuid info hport hevent huuid hinfo]
    cases t.dial ("ws://localhost:" ++ port) "" ("http://localhost:" ++ port) with
    | some err => rfl
    | none =>
      cases t.send ⟨"ws://localhost:" ++ port, "", "http://localhost:" ++ port⟩
        (render (.obj [("event", .str event), ("uuid", .str uuid)])) <;> rfl

/-- Witness for C12: an empty info, and four non-empty arguments. -/
theorem Dial_empty_argument_witness :
    ((∃ err, (Dial okTransport "28196" "registerPlugin" "plugin-uuid" "").1
        = (none, some err)) ∧
      (Dial okTransport "28196" "registerPlugin" "plugin-uuid" "").2 = []) ∧
    (Dial okTransport "28196" "registerPlugin" "plugin-uuid" "info").2 ≠ [] ∧
    ("28196" ≠ "" ∧ "registerPlugin" ≠ "" ∧ "plugin-uuid" ≠ "" ∧ "info" ≠ "") ∧
    (Dial okTransport "28196" "registerPlugin" "plugin-uuid" "info").2.head? =
      some (.dial ("ws://localhost:" ++ "28196") "" ("http://localhost:" ++ "28196")) :=
  ⟨(Dial_empty_argument okTransport "28196" "registerPlugin" "plugin-uuid" "").1
      (Or.inr (Or.inr (Or.inr rfl))),
    by decide,
    (Dial_empty_argument okTransport "28196" "registerPlugin" "plugin-uuid" "info").2.1
      (by decide),
    (Dial_empty_argument okTransport "28196" "registerPlugin" "plugin-uuid" "info").2.2
      (by decide) (by decide) (by decide) (by decide)⟩

/-- C13: when the four arguments of `Dial` are non-empty and the connection is
established, what `Dial` does on the network is the connection attempt followed
by exactly one message, the object with the two members `event` (the event
argument) and `uuid` (the uuid argument), which holds neither port nor info;
when writing it fails `Dial` returns an error and no connection, and when it
succeeds `Dial` returns the connection and no error. -/
theorem Dial_registration (t : Transport) (port event uuid info : String)
    (hport : port ≠ "") (hevent : event ≠ "") (huuid : uuid ≠ "") (hinfo : info ≠ "")
    (hdial : t.dial ("ws://localhost:" ++ port) "" ("http://localhost:" ++ port) = none) :
    (Dial t port event uuid info).2 =
      [.dial ("ws://localhost:" ++ port) "" ("http://localhost:" ++ port),
       .send ⟨"ws://localhost:" ++ port, "", "http://localhost:" ++ port⟩
         (render (.obj [("event", .str event), ("uuid", .str uuid)]))] ∧
    marshalValue (.map [("event", .string event), ("uuid", .string uuid)]) =
      .ok (.obj [("event", .str event), ("uuid", .str uuid)]) ∧
    (∀ err, t.send ⟨"ws://localhost:" ++ port, "", "http://localhost:" ++ port⟩
        (render (.obj [("event", .str event), ("uuid", .str uuid)])) = some err →
      (Dial t port event uuid info).1 =
        (none, some ("error during registratino procedure: " ++ err))) ∧
    (t.send ⟨"ws://localhost:" ++ port, "", "http://localhost:" ++ port⟩
        (render (.obj [("event", .str event), ("uuid", .str uuid)])) = none →
      (Dial t port event uuid info).1 =
        (some ⟨⟨"ws://localhost:" ++ port, "", "http://localhost:" ++ port⟩⟩, none)) := by
  rw [Dial_of_nonempty t port event uuid info hport hevent huuid hinfo, hdial]
  refine ⟨?_, rfl, ?_, ?_⟩
  · cases t.send ⟨"ws://localhost:" ++ port, "", "http://localhost:" ++ port⟩
      (render (.obj [("event", .str event), ("uuid", .str uuid)])) <;> rfl
  · intro err hsend
    simp [hsend]
  · intro hsend
    simp [hsend]

/-- Witness for C13: a run in which writing the registration message fails, with
the message written out. -/
theorem Dial_registration_witness :
    (Dial brokenPipeTransport "28196" "registerPlugin" "plugin-uuid" "info").2 =
      [.dial "ws://localhost:28196" "" "http://localhost:28196",
       .send ⟨"ws://localhost:28196", "", "http://localhost:28196"⟩
         "\x7b\"event\":\"registerPlugin\",\"uuid\":\"plugin-uuid\"\x7d"] ∧
    (Dial brokenPipeTransport "28196" "registerPlugin" "plugin-uuid" "info").1 =
      (none, some "error during registratino procedure: broken pipe") :=
  have h := Dial_registration brokenPipeTransport "28196" "registerPlugin" "plugin-uuid"
    "info" (by decide) (by decide) (by decide) (by decide) rfl
  ⟨h.1, h.2.2.1 "broken pipe" rfl⟩

/-! ## Reading back what the encoder wrote -/

/-- A character is the character of its code point. -/
theorem char_eq_ofNat (c : Char) : c = Char.ofNat c.toNat := (Char.ofNat_toNat c).symm

/-- Reading the escaped form of one character gives back the character. -/
theorem parseStringBody_escapeChar (fuel : Nat) (c : Char) (tail : List Char) :
    parseStringBody (fuel + 1) (escapeChar c ++ tail) =
      match parseStringBody fuel tail with
      | none => none
      | some (cs, after) => some (c :: cs, after) := by
  by_cases hsmall : c.toNat < 128
  · have hc := char_eq_ofNat c
    generalize c.toNat = n at hc hsmall
    subst hc
    interval_cases n <;> rfl
  · by_cases h1 : c.toNat = 8232
    · have hc := char_eq_ofNat c
      rw [h1] at hc
      subst hc
      rfl
    · by_cases h2 : c.toNat = 8233
      · have hc := char_eq_ofNat c
        rw [h2] at hc
        subst hc
        rfl
      · have e : escapeChar c = [c] := by
          unfold escapeChar
          simp only []
          rw [if_neg (by omega), if_neg (by omega), if_neg (by omega), if_neg (by omega),
            if_neg (by omega), if_neg (by omega), if_neg (by omega), if_neg (by omega)]
        rw [e]
        show parseStringBody (fuel + 1) (c :: tail) = _
        have h34 : ¬ c.toNat = 34 := by omega
        have h92 : ¬ c.toNat = 92 := by omega
        have h32 : ¬ c.toNat < 32 := by omega
        simp only [parseStringBody, h34, h92, h32, if_false]

/-- Reading the escaped form of a string up to the closing quote gives back the
string, when the fuel exceeds its length. -/
theorem parseStringBody_escape (cs : List Char) :
    ∀ (fuel : Nat) (rest : List Char), cs.length < fuel →
      parseStringBody fuel (cs.flatMap escapeChar ++ Char.ofNat 34 :: rest) = some (cs, rest) := by
  induction cs with
  | nil =>
    intro fuel rest h
    obtain ⟨k, rfl⟩ : ∃ k, fuel = k + 1 := ⟨fuel - 1, by simp at h; omega⟩
    rfl
  | cons c cs ih =>
    intro fuel rest h
    obtain ⟨k, rfl⟩ : ∃ k, fuel = k + 1 := ⟨fuel - 1, by simp at h; omega⟩
    have hk : cs.length < k := by simp at h; omega
    rw [List.flatMap_cons, List.append_assoc, parseStringBody_escapeChar, ih k rest hk]


/-- Escaping does not shorten a string. -/
theorem length_le_flatMap_escapeChar (cs : List Char) :
    cs.length ≤ (cs.flatMap escapeChar).length := by
  induction cs with
  | nil => simp
  | cons c cs ih =>
    have hc : 1 ≤ (escapeChar c).length := by
      unfold escapeChar
      simp only []
      split_ifs <;> simp
    simp only [List.flatMap_cons, List.length_append, List.length_cons]
    omega

/-- Reading the escaped form of a string with the fuel the reader uses. -/
theorem parseStringBody_literal (cs rest : List Char) :
    parseStringBody ((cs.flatMap escapeChar ++ Char.ofNat 34 :: rest).length + 1)
      (cs.flatMap escapeChar ++ Char.ofNat 34 :: rest) = some (cs, rest) := by
  apply parseStringBody_escape
  have := length_le_flatMap_escapeChar cs
  simp only [List.length_append, List.length_cons]
  omega

/-- Reading a rendered string value. -/
theorem parseValue_string (fuel : Nat) (cs rest : List Char) :
    parseValue (fuel + 1) (Char.ofNat 34 :: (cs.flatMap escapeChar ++ Char.ofNat 34 :: rest)) =
      some (.str (String.mk cs), rest) := by
  have hws : isWhitespace (Char.ofNat 34) = false := rfl
  have h3 : (Char.ofNat 34).toNat = 34 := rfl
  rw [parseValue]
  simp only [skipWhitespace, hws, h3, Bool.false_eq_true, if_false,
    if_true, parseStringBody_literal]
  rfl

/-- Reading the single member of a rendered object with one string member. -/
theorem parseMembers_single (fuel : Nat) (k u rest : List Char) :
    parseMembers (fuel + 2) (Char.ofNat 34 :: (k.flatMap escapeChar ++ Char.ofNat 34 ::
      Char.ofNat 58 :: Char.ofNat 34 :: (u.flatMap escapeChar ++ Char.ofNat 34 ::
        Char.ofNat 125 :: rest))) =
      some ([(String.mk k, .str (String.mk u))], rest) := by
  have hws1 : isWhitespace (Char.ofNat 34) = false := rfl
  have hws2 : isWhitespace (Char.ofNat 58) = false := rfl
  have hws3 : isWhitespace (Char.ofNat 125) = false := rfl
  have h1 : (Char.ofNat 34).toNat = 34 := rfl
  have h2 : (Char.ofNat 58).toNat = 58 := rfl
  have h3 : (Char.ofNat 125).toNat = 125 := rfl
  rw [parseMembers]
  simp only [skipWhitespace, hws1, hws2, hws3, h1, h2, h3, Bool.false_eq_true, if_false,
    if_true, parseStringBody_literal, parseValue_string]

/-- Reading a rendered object with one string member. -/
theorem parseValue_single (fuel : Nat) (k u rest : List Char) :
    parseValue (fuel + 3) (Char.ofNat 123 :: Char.ofNat 34 :: (k.flatMap escapeChar ++
      Char.ofNat 34 :: Char.ofNat 58 :: Char.ofNat 34 :: (u.flatMap escapeChar ++
        Char.ofNat 34 :: Char.ofNat 125 :: rest))) =
      some (.obj [(String.mk k, .str (String.mk u))], rest) := by
  have hws1 : isWhitespace (Char.ofNat 123) = false := rfl
  have hws2 : isWhitespace (Char.ofNat 34) = false := rfl
  have h1 : (Char.ofNat 123).toNat = 123 := rfl
  have h2 : ¬ (Char.ofNat 34).toNat = 125 := by decide
  rw [parseValue]
  simp only [skipWhitespace, hws1, hws2, h1, h2, Bool.false_eq_true, if_false, if_true,
    parseMembers_single]

/-- The characters of the rendering of an object with one string member. -/
theorem render_single_toList (k u : String) :
    (render (.obj [(k, .str u)])).toList =
      Char.ofNat 123 :: Char.ofNat 34 :: (k.toList.flatMap escapeChar ++
        Char.ofNat 34 :: Char.ofNat 58 :: Char.ofNat 34 :: (u.toList.flatMap escapeChar ++
          Char.ofNat 34 :: Char.ofNat 125 :: [])) := by
  simp [render, renderMembers, appendString, String.intercalate, String.intercalate.go,
    String.toList]

/-- Round trip: the rendering of an object with one string member reads back as
that object, for every key and every string value. -/
theorem parseJSON_render_single (k u : String) :
    parseJSON (render (.obj [(k, .str u)])) = some (.obj [(k, .str u)]) := by
  unfold parseJSON
  have hlen : (render (.obj [(k, .str u)])).length =
      (render (.obj [(k, .str u)])).toList.length := rfl
  rw [hlen, render_single_toList]
  have hfuel : ∀ (l : List Char), (Char.ofNat 123 :: Char.ofNat 34 :: l).length + 1
      = l.length + 3 := by intro l; simp
  rw [hfuel, parseValue_single]
  simp [skipWhitespace]

/-- C16: for every string `u` and session identity, the payload `newCommandPayload`
produces for `OpenURL` with URL `u` reads back as the JSON object with the single
member `url` whose value is the string `u`, and the payload for `LogMessage` with
message `u` as the object with the single member `message` whose value is `u`;
the payload is the same for every session identity. -/
theorem newCommandPayload_payload_roundtrip (u s : String) :
    (∃ p, newCommandPayload (OpenURL.toCommand ⟨u⟩) s = (some p, none) ∧
      parseJSON p.Payload = some (.obj [("url", .str u)]) ∧
      ∀ t : String, (newCommandPayload (OpenURL.toCommand ⟨u⟩) t).1.map
        (fun q => q.Payload) = some p.Payload) ∧
    (∃ p, newCommandPayload (LogMessage.toCommand ⟨u⟩) s = (some p, none) ∧
      parseJSON p.Payload = some (.obj [("message", .str u)]) ∧
      ∀ t : String, (newCommandPayload (LogMessage.toCommand ⟨u⟩) t).1.map
        (fun q => q.Payload) = some p.Payload) :=
  ⟨⟨_, newCommandPayload_openURL ⟨u⟩ s, parseJSON_render_single "url" u, fun _ => rfl⟩,
   ⟨_, newCommandPayload_logMessage ⟨u⟩ s, parseJSON_render_single "message" u,
     fun _ => rfl⟩⟩

end StreamDeck
